import Mathlib

/-!
# Vendor driver-command dispatcher (`driver_mac80211_nl.c`)

A shallow embedding of `wpa_driver_nl80211_driver_cmd`, of its helper
`wpa_driver_toggle_btcoex_state` and of the hang escalation
`wpa_driver_send_hang_msg`.

* A C string is the list of bytes of memory from the pointer to the end of the
  enclosing object (`List Nat`); pointer arithmetic `cmd + k` is `cmd.drop k`.
  Reading past the end of the object is undefined behaviour and is `none`.
* The driver primitives, the file operations and the trigger parser live outside
  this file of the driver; their results are supplied by an `Env` and every call
  is recorded in a chronological trace of `Event`s.
* The C library functions (`strcasecmp`, `strncasecmp`, `strlen`, `atoi`,
  `snprintf`) are modelled after their C / POSIX definitions.
-/

namespace TiWlan

/-! ## C library -/

/-- Bytes of a string literal, with its terminating NUL. -/
def lit (s : String) : List Nat := s.toList.map Char.toNat ++ [0]

/-- C `tolower` in the C locale. -/
def tolower (c : Nat) : Nat := if 65 ≤ c ∧ c ≤ 90 then c + 32 else c

/-- C `strcasecmp`: compares byte by byte after `tolower`, stops at the first difference or
at the NUL of the first string. `none` when a read leaves the object. -/
def os_strcasecmp : List Nat → List Nat → Option Int
  | [], _ => none
  | _ :: _, [] => none
  | a :: s1, b :: s2 =>
    if tolower a ≠ tolower b then some ((tolower a : Int) - (tolower b : Int))
    else if a = 0 then some 0
    else os_strcasecmp s1 s2

/-- C `strncasecmp`: as `strcasecmp`, over at most `n` bytes. -/
def os_strncasecmp : List Nat → List Nat → Nat → Option Int
  | _, _, 0 => some 0
  | [], _, _ + 1 => none
  | _ :: _, [], _ + 1 => none
  | a :: s1, b :: s2, n + 1 =>
    if tolower a ≠ tolower b then some ((tolower a : Int) - (tolower b : Int))
    else if a = 0 then some 0
    else os_strncasecmp s1 s2 n

/-- C `strlen`: number of bytes before the first NUL. -/
def os_strlen : List Nat → Option Nat
  | [] => none
  | c :: s => if c = 0 then some 0 else (os_strlen s).map (· + 1)

/-- C `isspace` in the C locale: space, and `\t \n \v \f \r`. -/
def isspace (c : Nat) : Bool := c = 32 || (9 ≤ c && c ≤ 13)

/-- C `isdigit`. -/
def isdigit (c : Nat) : Bool := 48 ≤ c && c ≤ 57

/-- Digit loop of `atoi`: accumulates decimal digits up to the first byte that is not one. -/
def atoi_digits : List Nat → Nat → Option Nat
  | [], _ => none
  | c :: s, acc => if isdigit c then atoi_digits s (acc * 10 + (c - 48)) else some acc

/-- Sign and digits of `atoi`, after the leading white space. -/
def atoi_signed : List Nat → Option Int
  | [] => none
  | c :: s =>
    if c = 45 then (atoi_digits s 0).map (fun n => - (n : Int))
    else if c = 43 then (atoi_digits s 0).map (fun n => (n : Int))
    else (atoi_digits (c :: s) 0).map (fun n => (n : Int))

/-- Leading white space of `atoi`; the result is the exact value of the decimal text, before
any conversion to `int`. -/
def atoi_skip : List Nat → Option Int
  | [] => none
  | c :: s => if isspace c then atoi_skip s else atoi_signed (c :: s)

def INT_MAX : Int := 2147483647

def INT_MIN : Int := -2147483648

def LONG_MAX : Int := 9223372036854775807

def LONG_MIN : Int := -9223372036854775808

/-- Two's complement value of an `int` after an arithmetic step or a conversion: the low 32 bits
of `v`, read as signed. -/
def wrap_int (v : Int) : Int := (v + 2147483648) % 4294967296 - 2147483648

/-- C `atoi`, that is `(int) strtol(s, NULL, 10)`: optional white space, optional sign, decimal
digits; 0 when there is no digit. The value of the text is `atoi_skip s`; when it fits `int` it
is the result. C leaves the result undefined otherwise; it is modelled as the usual library
does with a 64-bit `long`: `strtol` clamps to `long` and the conversion to `int` keeps the low
32 bits. -/
def atoi (s : List Nat) : Option Int :=
  (atoi_skip s).map (fun v =>
    wrap_int (if v < LONG_MIN then LONG_MIN else if LONG_MAX < v then LONG_MAX else v))

/-- Bytes that `snprintf(buf, size, ...)` stores for the formatted `text`: nothing when `size`
is 0, otherwise at most `size - 1` bytes of the text and a terminating NUL. -/
def os_snprintf_stored (size : Nat) (text : List Nat) : List Nat :=
  if size = 0 then [] else text.take (size - 1) ++ [0]

/-- C99 `snprintf`: returns the length of the whole formatted text, truncated or not, and the
buffer with the stored bytes at its start. -/
def os_snprintf (buf : List Nat) (size : Nat) (text : List Nat) : Int × List Nat :=
  ((text.length : Int),
    os_snprintf_stored size text ++ buf.drop (os_snprintf_stored size text).length)

/-! ## Constants of the file and of the headers it uses -/

def WPA_EVENT_DRIVER_STATE : String := "CTRL-EVENT-DRIVER-STATE "

def DRV_NUMBER_SEQUENTIAL_ERRORS : Int := 4

def BLUETOOTH_COEXISTENCE_MODE_ENABLED : Int := 0

def BLUETOOTH_COEXISTENCE_MODE_DISABLED : Int := 1

def BLUETOOTH_COEXISTENCE_MODE_SENSE : Int := 2

def ETH_ALEN : Nat := 6

/-- One hexadecimal digit, upper case. -/
def hexdigit (n : Nat) : Nat := if n < 10 then 48 + n else 55 + n

/-- Conversion of one `u8` argument: two hexadecimal digits, zero padded. -/
def hex2 (b : Nat) : List Nat := [hexdigit (b % 256 / 16), hexdigit (b % 16)]

/-- Modelled from the spec: the macros `MACSTR` and `MAC2STR` (declared in a header that is not
part of the sources at hand). `MAC2STR(a)` passes `a[0]` to `a[5]`; `MACSTR` renders them as
`XX:XX:XX:XX:XX:XX`, two upper-case hexadecimal digits each, colon separated. -/
def MACSTR (a : List Nat) : List Nat :=
  hex2 (a.getD 0 0) ++ [58] ++ hex2 (a.getD 1 0) ++ [58] ++ hex2 (a.getD 2 0) ++ [58] ++
    hex2 (a.getD 3 0) ++ [58] ++ hex2 (a.getD 4 0) ++ [58] ++ hex2 (a.getD 5 0)

/-- Text produced by the format `"Macaddr = " MACSTR "\n"`. -/
def macaddr_text (a : List Nat) : List Nat :=
  ("Macaddr = ".toList.map Char.toNat) ++ MACSTR a ++ [10]

/-! ## Environment, events and state -/

/-- Levels of `wpa_printf` and `wpa_msg` used by the file. -/
inductive Level where
  | MSG_DEBUG
  | MSG_INFO
  | MSG_ERROR
  deriving DecidableEq

/-- Argument of a `wpa_printf` conversion. -/
inductive Arg where
  | str (s : List Nat)
  | chr (c : Nat)
  | int (v : Int)
  deriving DecidableEq

/-- Calls that leave the file, in the order they are made. -/
inductive Event where
  | linux_set_iface_flags (dev_up : Int)
  | wpa_msg (level : Level) (text : String)
  | wpa_printf (level : Level) (fmt : String) (args : List Arg)
  | open_bt_coex_state
  | write (data : List Nat)
  | close
  | linux_get_ifhwaddr
  | nl80211_toggle_wowlan_trigger (i : Int) (enabled : Int)
  | nl80211_set_wowlan_triggers (enabled : Int)
  | nl80211_toggle_dropbcast (enabled : Int)
  | nl80211_dropbcast_get (buf_len : Nat)
  deriving DecidableEq

/-- Results of the calls that leave the file. -/
structure Env where
  /-- Status of `linux_set_iface_flags(sock, ifname, dev_up)`. -/
  linux_set_iface_flags : Int → Int
  /-- Status of `linux_get_ifhwaddr` and the content of `macaddr` after the call. -/
  linux_get_ifhwaddr : Int × List Nat
  /-- Descriptor returned by `open` on the coexistence control file, -1 on failure. -/
  open_bt_coex_state : Int
  /-- Value returned by `write(fd, data, len)`. -/
  write : List Nat → Int
  /-- Value of `nl80211_parse_wowlan_trigger_nr` on the text it is given. -/
  nl80211_parse_wowlan_trigger_nr : List Nat → Int
  /-- Status of `nl80211_toggle_wowlan_trigger(bss, i, enabled)`. -/
  nl80211_toggle_wowlan_trigger : Int → Int → Int
  /-- Status of `nl80211_set_wowlan_triggers(bss, enabled)`. -/
  nl80211_set_wowlan_triggers : Int → Int
  /-- Status of `nl80211_toggle_dropbcast(enabled)`. -/
  nl80211_toggle_dropbcast : Int → Int
  /-- Status of `nl80211_dropbcast_get(buf, buf_len)` and the buffer after the call. -/
  nl80211_dropbcast_get : List Nat → Nat → Int × List Nat

/-- The process-wide counter, the calls made so far and the caller's output buffer. -/
structure State where
  g_drv_errors : Int
  trace : List Event
  buf : List Nat
  deriving DecidableEq

/-- Appends one call to the trace. -/
def State.emit (st : State) (e : Event) : State :=
  { st with trace := st.trace ++ [e] }

/-! ## The functions of the file -/

/-- Source: `wpa_driver_send_hang_msg`. -/
def wpa_driver_send_hang_msg (st : State) : State :=
  let st1 := { st with g_drv_errors := wrap_int (st.g_drv_errors + 1) }
  if st1.g_drv_errors > DRV_NUMBER_SEQUENTIAL_ERRORS then
    ({ st1 with g_drv_errors := 0 } : State).emit
      (Event.wpa_msg Level.MSG_INFO (WPA_EVENT_DRIVER_STATE ++ "HANGED"))
  else st1

/-- Source: `wpa_driver_toggle_btcoex_state`. -/
def wpa_driver_toggle_btcoex_state (env : Env) (st : State) (state : Nat) : Int × State :=
  let st1 := st.emit Event.open_bt_coex_state
  if env.open_bt_coex_state = -1 then (-1, st1)
  else
    let ret := env.write [state]
    let st2 := (st1.emit (Event.write [state])).emit Event.close
    (ret, st2.emit (Event.wpa_printf Level.MSG_DEBUG "%s:  set btcoex state to '%c' result = %d"
      [Arg.str (lit "wpa_driver_toggle_btcoex_state"), Arg.chr state, Arg.int ret]))

/-- The `BTCOEXMODE ` branch, lines 96-104. -/
def cmd_btcoexmode (env : Env) (st : State) (cmd : List Nat) : Option (Int × State) :=
  (atoi (cmd.drop 11)).map fun mode =>
    if mode = BLUETOOTH_COEXISTENCE_MODE_DISABLED then wpa_driver_toggle_btcoex_state env st 48
    else if mode = BLUETOOTH_COEXISTENCE_MODE_SENSE then wpa_driver_toggle_btcoex_state env st 49
    else (-1, st.emit (Event.wpa_printf Level.MSG_DEBUG "invalid btcoex mode: %d" [Arg.int mode]))

/-- The `MACADDR` branch, lines 106-111. -/
def cmd_macaddr (env : Env) (st : State) (buf_len : Nat) : Int × State :=
  let st1 := st.emit Event.linux_get_ifhwaddr
  let ret := env.linux_get_ifhwaddr.1
  let macaddr := env.linux_get_ifhwaddr.2
  if ret = 0 then
    let r := os_snprintf st1.buf buf_len (macaddr_text macaddr)
    (r.1, { st1 with buf := r.2 })
  else (ret, st1)

/-- The `RXFILTER-ADD ` and `RXFILTER-REMOVE ` branches, lines 113-116 and 118-121;
`off` is the length of the keyword and `enabled` the last argument of the toggle. -/
def cmd_rxfilter (env : Env) (st : State) (cmd : List Nat) (off : Nat) (enabled : Int) :
    Int × State :=
  let i := env.nl80211_parse_wowlan_trigger_nr (cmd.drop off)
  if i < 0 then (i, st)
  else (env.nl80211_toggle_wowlan_trigger i enabled,
    st.emit (Event.nl80211_toggle_wowlan_trigger i enabled))

/-- The `DROPBCAST` branch, lines 127-143. -/
def cmd_dropbcast (env : Env) (st : State) (cmd : List Nat) (buf_len : Nat) :
    Option (Int × State) :=
  let value := cmd.drop 10
  (os_strcasecmp value (lit "ENABLE")).bind fun e1 =>
  (if e1 = 0 then some true else (os_strcasecmp value (lit "1")).map (fun e2 => decide (e2 = 0))).bind
  fun en =>
  if en then
    some (env.nl80211_toggle_dropbcast 1, st.emit (Event.nl80211_toggle_dropbcast 1))
  else
  (os_strcasecmp value (lit "DISABLE")).bind fun d1 =>
  (if d1 = 0 then some true else (os_strcasecmp value (lit "0")).map (fun d2 => decide (d2 = 0))).bind
  fun dis =>
  if dis then
    some (env.nl80211_toggle_dropbcast 0, st.emit (Event.nl80211_toggle_dropbcast 0))
  else
  (os_strcasecmp value (lit "GET")).bind fun g1 =>
  (if g1 = 0 then some true else (os_strlen value).map (fun n => decide (n = 0))).bind
  fun get =>
  if get then
    let r := env.nl80211_dropbcast_get st.buf buf_len
    some (r.1, { st.emit (Event.nl80211_dropbcast_get buf_len) with buf := r.2 })
  else
    some (-1, st.emit (Event.wpa_printf Level.MSG_ERROR "Invalid parameter for DROPBCAST: %s"
      [Arg.str value]))

/-- The `SETBAND ` branch, lines 145-148. -/
def cmd_setband (st : State) (cmd : List Nat) : Option (Int × State) :=
  (atoi (cmd.drop 8)).map fun val => if val < 0 ∨ val > 2 then (-1, st) else (0, st)

/-- Source: `wpa_driver_nl80211_driver_cmd`. The caller's buffer is `st.buf`; the result is the
returned `int` and the state after the call, `none` when a read leaves the object `cmd` points
into. -/
def wpa_driver_nl80211_driver_cmd (env : Env) (st : State) (cmd : List Nat) (buf_len : Nat) :
    Option (Int × State) :=
  (os_strcasecmp cmd (lit "STOP")).bind fun c1 =>
  if c1 = 0 then
    some (0, ((st.emit (Event.linux_set_iface_flags 0)).emit
      (Event.wpa_msg Level.MSG_INFO (WPA_EVENT_DRIVER_STATE ++ "STOPPED"))))
  else (os_strcasecmp cmd (lit "START")).bind fun c2 =>
  if c2 = 0 then
    some (0, ((st.emit (Event.linux_set_iface_flags 1)).emit
      (Event.wpa_msg Level.MSG_INFO (WPA_EVENT_DRIVER_STATE ++ "STARTED"))))
  else (os_strcasecmp cmd (lit "RELOAD")).bind fun c3 =>
  if c3 = 0 then
    some (0, st.emit (Event.wpa_msg Level.MSG_INFO (WPA_EVENT_DRIVER_STATE ++ "HANGED")))
  else (os_strncasecmp cmd (lit "BTCOEXMODE ") 11).bind fun c4 =>
  if c4 = 0 then cmd_btcoexmode env st cmd
  else (os_strcasecmp cmd (lit "MACADDR")).bind fun c5 =>
  if c5 = 0 then some (cmd_macaddr env st buf_len)
  else (os_strncasecmp cmd (lit "RXFILTER-ADD ") 13).bind fun c6 =>
  if c6 = 0 then some (cmd_rxfilter env st cmd 13 1)
  else (os_strncasecmp cmd (lit "RXFILTER-REMOVE ") 16).bind fun c7 =>
  if c7 = 0 then some (cmd_rxfilter env st cmd 16 0)
  else (os_strcasecmp cmd (lit "RXFILTER-START")).bind fun c8 =>
  if c8 = 0 then
    some (env.nl80211_set_wowlan_triggers 1, st.emit (Event.nl80211_set_wowlan_triggers 1))
  else (os_strcasecmp cmd (lit "RXFILTER-STOP")).bind fun c9 =>
  if c9 = 0 then
    some (env.nl80211_set_wowlan_triggers 0, st.emit (Event.nl80211_set_wowlan_triggers 0))
  else (os_strncasecmp cmd (lit "DROPBCAST") 9).bind fun c10 =>
  if c10 = 0 then cmd_dropbcast env st cmd buf_len
  else (os_strncasecmp cmd (lit "SETBAND ") 8).bind fun c11 =>
  if c11 = 0 then cmd_setband st cmd
  else
    some (0, st.emit (Event.wpa_printf Level.MSG_INFO "%s: Unsupported command %s"
      [Arg.str (lit "wpa_driver_nl80211_driver_cmd"), Arg.str cmd]))

/-- An environment for examples: every primitive succeeds, the address is
`00:1A:2B:3C:4D:FF`. -/
def env_ok : Env where
  linux_set_iface_flags := fun _ => 0
  linux_get_ifhwaddr := (0, [0, 26, 43, 60, 77, 255])
  open_bt_coex_state := 3
  write := fun d => (d.length : Int)
  nl80211_parse_wowlan_trigger_nr := fun s => (atoi s).getD 0
  nl80211_toggle_wowlan_trigger := fun _ _ => 0
  nl80211_set_wowlan_triggers := fun _ => 0
  nl80211_toggle_dropbcast := fun _ => 0
  nl80211_dropbcast_get := fun b _ => (0, b)

/-- Initial state with an output buffer of `n` bytes holding 1. -/
def st0 (n : Nat) : State := { g_drv_errors := 0, trace := [], buf := List.replicate n 1 }

/-! ## Keys: the command as the comparisons see it -/

/-- The C string at `s` with every byte lowered; `none` when no NUL ends it inside the object. -/
def lowerStr : List Nat → Option (List Nat)
  | [] => none
  | c :: s => if c = 0 then some [] else (lowerStr s).map (fun k => tolower c :: k)

/-- Lowered bytes of a keyword, without terminator. -/
def key (s : String) : List Nat := s.toList.map (fun c => tolower c.toNat)

/-- The eleven conditions of the `if` chain, in source order. -/
def rule_tests (cmd : List Nat) : List (Option Int) :=
  [os_strcasecmp cmd (lit "STOP"), os_strcasecmp cmd (lit "START"),
   os_strcasecmp cmd (lit "RELOAD"), os_strncasecmp cmd (lit "BTCOEXMODE ") 11,
   os_strcasecmp cmd (lit "MACADDR"), os_strncasecmp cmd (lit "RXFILTER-ADD ") 13,
   os_strncasecmp cmd (lit "RXFILTER-REMOVE ") 16, os_strcasecmp cmd (lit "RXFILTER-START"),
   os_strcasecmp cmd (lit "RXFILTER-STOP"), os_strncasecmp cmd (lit "DROPBCAST") 9,
   os_strncasecmp cmd (lit "SETBAND ") 8]

/-- The `if` chain of `wpa_driver_nl80211_driver_cmd` read on the lowered command `k`: the
branch taken by a terminated command whose lowered text is `k`. -/
def dispatch_by_key (env : Env) (st : State) (cmd : List Nat) (buf_len : Nat) (k : List Nat) :
    Option (Int × State) :=
  if k = key "STOP" then
    some (0, ((st.emit (Event.linux_set_iface_flags 0)).emit
      (Event.wpa_msg Level.MSG_INFO (WPA_EVENT_DRIVER_STATE ++ "STOPPED"))))
  else if k = key "START" then
    some (0, ((st.emit (Event.linux_set_iface_flags 1)).emit
      (Event.wpa_msg Level.MSG_INFO (WPA_EVENT_DRIVER_STATE ++ "STARTED"))))
  else if k = key "RELOAD" then
    some (0, st.emit (Event.wpa_msg Level.MSG_INFO (WPA_EVENT_DRIVER_STATE ++ "HANGED")))
  else if k.take 11 = key "BTCOEXMODE " then cmd_btcoexmode env st cmd
  else if k = key "MACADDR" then some (cmd_macaddr env st buf_len)
  else if k.take 13 = key "RXFILTER-ADD " then some (cmd_rxfilter env st cmd 13 1)
  else if k.take 16 = key "RXFILTER-REMOVE " then some (cmd_rxfilter env st cmd 16 0)
  else if k = key "RXFILTER-START" then
    some (env.nl80211_set_wowlan_triggers 1, st.emit (Event.nl80211_set_wowlan_triggers 1))
  else if k = key "RXFILTER-STOP" then
    some (env.nl80211_set_wowlan_triggers 0, st.emit (Event.nl80211_set_wowlan_triggers 0))
  else if k.take 9 = key "DROPBCAST" then cmd_dropbcast env st cmd buf_len
  else if k.take 8 = key "SETBAND " then cmd_setband st cmd
  else
    some (0, st.emit (Event.wpa_printf Level.MSG_INFO "%s: Unsupported command %s"
      [Arg.str (lit "wpa_driver_nl80211_driver_cmd"), Arg.str cmd]))

/-- The notification `CTRL-EVENT-DRIVER-STATE HANGED`. -/
def hanged_msg : Event := Event.wpa_msg Level.MSG_INFO (WPA_EVENT_DRIVER_STATE ++ "HANGED")

/-- The state after `n` consecutive calls of `wpa_driver_send_hang_msg`. -/
def hang_msgs : Nat → State → State
  | 0, st => st
  | n + 1, st => wpa_driver_send_hang_msg (hang_msgs n st)

/-- Length of the keyword of the rule that a terminated command with lowered text `k` matches:
the whole text for the six exact rules, the compared bytes for the five others, 0 when no rule
matches. -/
def keyword_length (k : List Nat) : Nat :=
  if k = key "STOP" then 4
  else if k = key "START" then 5
  else if k = key "RELOAD" then 6
  else if k.take 11 = key "BTCOEXMODE " then 11
  else if k = key "MACADDR" then 7
  else if k.take 13 = key "RXFILTER-ADD " then 13
  else if k.take 16 = key "RXFILTER-REMOVE " then 16
  else if k = key "RXFILTER-START" then 14
  else if k = key "RXFILTER-STOP" then 13
  else if k.take 9 = key "DROPBCAST" then 9
  else if k.take 8 = key "SETBAND " then 8
  else 0

/-- The eleven match conditions read on the lowered text of a terminated command, in source
order. -/
def rule_conds (k : List Nat) : List Bool :=
  [decide (k = key "STOP"), decide (k = key "START"), decide (k = key "RELOAD"),
   decide (k.take 11 = key "BTCOEXMODE "), decide (k = key "MACADDR"),
   decide (k.take 13 = key "RXFILTER-ADD "), decide (k.take 16 = key "RXFILTER-REMOVE "),
   decide (k = key "RXFILTER-START"), decide (k = key "RXFILTER-STOP"),
   decide (k.take 9 = key "DROPBCAST"), decide (k.take 8 = key "SETBAND ")]

/-- The eleven rules of the `if` chain in source order: the value of the test and the result of
the branch it guards. -/
def rule_table (env : Env) (st : State) (cmd : List Nat) (buf_len : Nat) :
    List (Option Int × Option (Int × State)) :=
  [(os_strcasecmp cmd (lit "STOP"),
      some (0, ((st.emit (Event.linux_set_iface_flags 0)).emit
        (Event.wpa_msg Level.MSG_INFO (WPA_EVENT_DRIVER_STATE ++ "STOPPED"))))),
   (os_strcasecmp cmd (lit "START"),
      some (0, ((st.emit (Event.linux_set_iface_flags 1)).emit
        (Event.wpa_msg Level.MSG_INFO (WPA_EVENT_DRIVER_STATE ++ "STARTED"))))),
   (os_strcasecmp cmd (lit "RELOAD"),
      some (0, st.emit (Event.wpa_msg Level.MSG_INFO (WPA_EVENT_DRIVER_STATE ++ "HANGED")))),
   (os_strncasecmp cmd (lit "BTCOEXMODE ") 11, cmd_btcoexmode env st cmd),
   (os_strcasecmp cmd (lit "MACADDR"), some (cmd_macaddr env st buf_len)),
   (os_strncasecmp cmd (lit "RXFILTER-ADD ") 13, some (cmd_rxfilter env st cmd 13 1)),
   (os_strncasecmp cmd (lit "RXFILTER-REMOVE ") 16, some (cmd_rxfilter env st cmd 16 0)),
   (os_strcasecmp cmd (lit "RXFILTER-START"),
      some (env.nl80211_set_wowlan_triggers 1, st.emit (Event.nl80211_set_wowlan_triggers 1))),
   (os_strcasecmp cmd (lit "RXFILTER-STOP"),
      some (env.nl80211_set_wowlan_triggers 0, st.emit (Event.nl80211_set_wowlan_triggers 0))),
   (os_strncasecmp cmd (lit "DROPBCAST") 9, cmd_dropbcast env st cmd buf_len),
   (os_strncasecmp cmd (lit "SETBAND ") 8, cmd_setband st cmd)]

/-- The branch after the last `else`. -/
def unsupported (st : State) (cmd : List Nat) : Option (Int × State) :=
  some (0, st.emit (Event.wpa_printf Level.MSG_INFO "%s: Unsupported command %s"
    [Arg.str (lit "wpa_driver_nl80211_driver_cmd"), Arg.str cmd]))

/-- First match wins: the tests are evaluated in the order of the list, the first one that is 0
selects its branch, and `dflt` is taken when none is. -/
def first_match : List (Option Int × Option (Int × State)) → Option (Int × State) →
    Option (Int × State)
  | [], dflt => dflt
  | (t, a) :: rest, dflt => t.bind fun c => if c = 0 then a else first_match rest dflt

/-- The dispatcher made no escalation between `st` and `st1`: same failure counter, and the
calls added to the trace do not contain the "HANGED" notification. -/
def quiet (st st1 : State) : Prop :=
  st1.g_drv_errors = st.g_drv_errors ∧
    ∃ evs, st1.trace = st.trace ++ evs ∧ hanged_msg ∉ evs

/-! ## Lemmas on the C library model -/

theorem tolower_eq_zero (c : Nat) : tolower c = 0 ↔ c = 0 := by
  unfold tolower
  split <;> omega

theorem lowerStr_of_mem : ∀ (s : List Nat), 0 ∈ s → ∃ k, lowerStr s = some k
  | [], h => by simp at h
  | c :: s, h => by
    by_cases hc : c = 0
    · exact ⟨[], by simp [lowerStr, hc]⟩
    · have hs : 0 ∈ s := by
        rcases List.mem_cons.mp h with h1 | h1
        · exact absurd h1.symm hc
        · exact h1
      obtain ⟨k, hk⟩ := lowerStr_of_mem s hs
      exact ⟨tolower c :: k, by simp [lowerStr, hc, hk]⟩

theorem mem_of_lowerStr : ∀ (s : List Nat) (k : List Nat), lowerStr s = some k → 0 ∈ s
  | [], _, h => by simp [lowerStr] at h
  | c :: s, k, h => by
    by_cases hc : c = 0
    · simp [hc]
    · simp only [lowerStr, hc, if_false, Option.map_eq_some'] at h
      obtain ⟨k1, hk1, _⟩ := h
      exact List.mem_cons_of_mem _ (mem_of_lowerStr s k1 hk1)

/-- On terminated strings `strcasecmp` returns, and returns 0 exactly when the lowered strings
are equal. -/
theorem os_strcasecmp_spec : ∀ (s t ks kt : List Nat), lowerStr s = some ks →
    lowerStr t = some kt → ∃ r, os_strcasecmp s t = some r ∧ (r = 0 ↔ ks = kt)
  | [], _, _, _, hs, _ => by simp [lowerStr] at hs
  | _ :: _, [], _, _, _, ht => by simp [lowerStr] at ht
  | a :: s, b :: t, ks, kt, hs, ht => by
    by_cases hab : tolower a = tolower b
    · by_cases ha : a = 0
      · have hb : b = 0 := by
          rw [ha] at hab
          exact (tolower_eq_zero b).mp hab.symm
        subst ha; subst hb
        simp only [lowerStr, if_true, Option.some.injEq] at hs ht
        subst hs; subst ht
        exact ⟨0, by simp [os_strcasecmp], by simp⟩
      · have hb : b ≠ 0 := by
          intro hb
          rw [hb] at hab
          exact ha ((tolower_eq_zero a).mp hab)
        simp only [lowerStr, ha, hb, if_false, Option.map_eq_some'] at hs ht
        obtain ⟨ks1, hs1, rfl⟩ := hs
        obtain ⟨kt1, ht1, rfl⟩ := ht
        obtain ⟨r, hr, hiff⟩ := os_strcasecmp_spec s t ks1 kt1 hs1 ht1
        refine ⟨r, by simp [os_strcasecmp, hab, ha, hr], ?_⟩
        simp [hab, hiff]
    · refine ⟨(tolower a : Int) - (tolower b : Int), by simp [os_strcasecmp, hab], ?_⟩
      have hne : ((tolower a : Int) - (tolower b : Int) = 0) ↔ False := by
        constructor
        · intro h
          exact hab (by omega)
        · exact False.elim
      rw [hne, false_iff]
      intro hk
      subst hk
      by_cases ha : a = 0
      · by_cases hb : b = 0
        · exact hab (by rw [ha, hb])
        · simp only [lowerStr, ha, hb, if_true, if_false, Option.map_eq_some'] at hs ht
          obtain ⟨kt1, _, h2⟩ := ht
          simp at hs
          rw [hs] at h2
          simp at h2
      · by_cases hb : b = 0
        · simp only [lowerStr, ha, hb, if_true, if_false, Option.map_eq_some'] at hs ht
          obtain ⟨ks1, _, h2⟩ := hs
          simp at ht
          rw [ht] at h2
          simp at h2
        · simp only [lowerStr, ha, hb, if_false, Option.map_eq_some'] at hs ht
          obtain ⟨ks1, _, h1⟩ := hs
          obtain ⟨kt1, _, h2⟩ := ht
          rw [← h1] at h2
          simp at h2
          exact hab h2.1.symm

/-- A zero result of `strcasecmp` means both strings are terminated and equal once lowered. -/
theorem os_strcasecmp_zero : ∀ (s t : List Nat), os_strcasecmp s t = some 0 →
    ∃ k, lowerStr s = some k ∧ lowerStr t = some k
  | [], _, h => by simp [os_strcasecmp] at h
  | _ :: _, [], h => by simp [os_strcasecmp] at h
  | a :: s, b :: t, h => by
    by_cases hab : tolower a = tolower b
    · by_cases ha : a = 0
      · have hb : b = 0 := by
          rw [ha] at hab
          exact (tolower_eq_zero b).mp hab.symm
        exact ⟨[], by simp [lowerStr, ha], by simp [lowerStr, hb]⟩
      · have hb : b ≠ 0 := by
          intro hb
          rw [hb] at hab
          exact ha ((tolower_eq_zero a).mp hab)
        simp only [os_strcasecmp, hab, ha, ne_eq, not_true_eq_false, if_false] at h
        obtain ⟨k, h1, h2⟩ := os_strcasecmp_zero s t h
        exact ⟨tolower a :: k, by simp [lowerStr, ha, h1], by simp [lowerStr, hb, h2, hab]⟩
    · simp only [os_strcasecmp, hab, ne_eq, not_false_eq_true, if_true, Option.some.injEq] at h
      exact absurd (by omega) hab

/-- On terminated strings `strncasecmp` returns, and returns 0 exactly when the lowered strings
agree on their first `n` bytes. -/
theorem os_strncasecmp_spec : ∀ (n : Nat) (s t ks kt : List Nat), lowerStr s = some ks →
    lowerStr t = some kt →
    ∃ r, os_strncasecmp s t n = some r ∧ (r = 0 ↔ ks.take n = kt.take n)
  | 0, _, _, _, _, _, _ => ⟨0, by simp [os_strncasecmp], by simp⟩
  | _ + 1, [], _, _, _, hs, _ => by simp [lowerStr] at hs
  | _ + 1, _ :: _, [], _, _, _, ht => by simp [lowerStr] at ht
  | n + 1, a :: s, b :: t, ks, kt, hs, ht => by
    by_cases hab : tolower a = tolower b
    · by_cases ha : a = 0
      · have hb : b = 0 := by
          rw [ha] at hab
          exact (tolower_eq_zero b).mp hab.symm
        subst ha; subst hb
        simp only [lowerStr, if_true, Option.some.injEq] at hs ht
        subst hs; subst ht
        exact ⟨0, by simp [os_strncasecmp], by simp⟩
      · have hb : b ≠ 0 := by
          intro hb
          rw [hb] at hab
          exact ha ((tolower_eq_zero a).mp hab)
        simp only [lowerStr, ha, hb, if_false, Option.map_eq_some'] at hs ht
        obtain ⟨ks1, hs1, rfl⟩ := hs
        obtain ⟨kt1, ht1, rfl⟩ := ht
        obtain ⟨r, hr, hiff⟩ := os_strncasecmp_spec n s t ks1 kt1 hs1 ht1
        refine ⟨r, by simp [os_strncasecmp, hab, ha, hr], ?_⟩
        simp [hab, hiff]
    · refine ⟨(tolower a : Int) - (tolower b : Int), by simp [os_strncasecmp, hab], ?_⟩
      have hne : ((tolower a : Int) - (tolower b : Int) = 0) ↔ False := by
        constructor
        · intro h
          exact hab (by omega)
        · exact False.elim
      rw [hne, false_iff]
      intro hk
      by_cases ha : a = 0
      · by_cases hb : b = 0
        · exact hab (by rw [ha, hb])
        · simp only [lowerStr, ha, hb, if_true, if_false, Option.map_eq_some'] at hs ht
          obtain ⟨kt1, _, h2⟩ := ht
          simp at hs
          rw [hs, ← h2] at hk
          simp at hk
      · by_cases hb : b = 0
        · simp only [lowerStr, ha, hb, if_true, if_false, Option.map_eq_some'] at hs ht
          obtain ⟨ks1, _, h2⟩ := hs
          simp at ht
          rw [ht, ← h2] at hk
          simp at hk
        · simp only [lowerStr, ha, hb, if_false, Option.map_eq_some'] at hs ht
          obtain ⟨ks1, _, h1⟩ := hs
          obtain ⟨kt1, _, h2⟩ := ht
          rw [← h1, ← h2] at hk
          simp at hk
          exact hab hk.1

/-- One exact-match step of the `if` chain, on a terminated command. -/
theorem bind_strcasecmp {α : Type} (s t ks kt : List Nat) (hs : lowerStr s = some ks)
    (ht : lowerStr t = some kt) (a b : Option α) :
    ((os_strcasecmp s t).bind fun c => if c = 0 then a else b) = if ks = kt then a else b := by
  obtain ⟨r, hr, hiff⟩ := os_strcasecmp_spec s t ks kt hs ht
  rw [hr, Option.some_bind]
  by_cases h : r = 0
  · rw [if_pos h, if_pos (hiff.mp h)]
  · rw [if_neg h, if_neg (fun hk => h (hiff.mpr hk))]

/-- One keyword-match step of the `if` chain, on a terminated command. -/
theorem bind_strncasecmp {α : Type} (n : Nat) (s t ks kt : List Nat) (hs : lowerStr s = some ks)
    (ht : lowerStr t = some kt) (a b : Option α) :
    ((os_strncasecmp s t n).bind fun c => if c = 0 then a else b) =
      if ks.take n = kt.take n then a else b := by
  obtain ⟨r, hr, hiff⟩ := os_strncasecmp_spec n s t ks kt hs ht
  rw [hr, Option.some_bind]
  by_cases h : r = 0
  · rw [if_pos h, if_pos (hiff.mp h)]
  · rw [if_neg h, if_neg (fun hk => h (hiff.mpr hk))]

/-- The dispatcher on a terminated command is the `if` chain on its lowered text. -/
theorem driver_cmd_by_key (env : Env) (st : State) (cmd : List Nat) (buf_len : Nat)
    (k : List Nat) (hk : lowerStr cmd = some k) :
    wpa_driver_nl80211_driver_cmd env st cmd buf_len = dispatch_by_key env st cmd buf_len k := by
  unfold wpa_driver_nl80211_driver_cmd dispatch_by_key
  rw [bind_strcasecmp cmd (lit "STOP") k (key "STOP") hk rfl,
    bind_strcasecmp cmd (lit "START") k (key "START") hk rfl,
    bind_strcasecmp cmd (lit "RELOAD") k (key "RELOAD") hk rfl,
    bind_strncasecmp 11 cmd (lit "BTCOEXMODE ") k (key "BTCOEXMODE ") hk rfl,
    bind_strcasecmp cmd (lit "MACADDR") k (key "MACADDR") hk rfl,
    bind_strncasecmp 13 cmd (lit "RXFILTER-ADD ") k (key "RXFILTER-ADD ") hk rfl,
    bind_strncasecmp 16 cmd (lit "RXFILTER-REMOVE ") k (key "RXFILTER-REMOVE ") hk rfl,
    bind_strcasecmp cmd (lit "RXFILTER-START") k (key "RXFILTER-START") hk rfl,
    bind_strcasecmp cmd (lit "RXFILTER-STOP") k (key "RXFILTER-STOP") hk rfl,
    bind_strncasecmp 9 cmd (lit "DROPBCAST") k (key "DROPBCAST") hk rfl,
    bind_strncasecmp 8 cmd (lit "SETBAND ") k (key "SETBAND ") hk rfl]
  rfl

theorem key_eq_of_zero (s t ks kt : List Nat) (hs : lowerStr s = some ks)
    (ht : lowerStr t = some kt) (h : os_strcasecmp s t = some 0) : ks = kt := by
  obtain ⟨r, hr, hiff⟩ := os_strcasecmp_spec s t ks kt hs ht
  rw [hr, Option.some.injEq] at h
  exact hiff.mp h

theorem key_ne_of_ne (s t ks kt : List Nat) (hs : lowerStr s = some ks)
    (ht : lowerStr t = some kt) (h : os_strcasecmp s t ≠ some 0) : ks ≠ kt := by
  obtain ⟨r, hr, hiff⟩ := os_strcasecmp_spec s t ks kt hs ht
  intro hk
  exact h (by rw [hr, hiff.mpr hk])

theorem take_eq_of_zero (n : Nat) (s t ks kt : List Nat) (hs : lowerStr s = some ks)
    (ht : lowerStr t = some kt) (h : os_strncasecmp s t n = some 0) :
    ks.take n = kt.take n := by
  obtain ⟨r, hr, hiff⟩ := os_strncasecmp_spec n s t ks kt hs ht
  rw [hr, Option.some.injEq] at h
  exact hiff.mp h

theorem take_ne_of_ne (n : Nat) (s t ks kt : List Nat) (hs : lowerStr s = some ks)
    (ht : lowerStr t = some kt) (h : os_strncasecmp s t n ≠ some 0) :
    ks.take n ≠ kt.take n := by
  obtain ⟨r, hr, hiff⟩ := os_strncasecmp_spec n s t ks kt hs ht
  intro hk
  exact h (by rw [hr, hiff.mpr hk])

/-! ## Claims -/

/-- C1: a terminated command on which none of the eleven conditions of the `if` chain holds
makes the dispatcher return 0; the only call it makes is the "Unsupported command" log line, so
no driver primitive runs, no notification is sent, and the output buffer and the failure counter
are as before. -/
theorem unsupported_command_returns_zero (env : Env) (st : State) (cmd : List Nat)
    (buf_len : Nat) (h0 : 0 ∈ cmd) (hno : ∀ r ∈ rule_tests cmd, r ≠ some 0) :
    wpa_driver_nl80211_driver_cmd env st cmd buf_len =
      some (0, { g_drv_errors := st.g_drv_errors,
                 trace := st.trace ++ [Event.wpa_printf Level.MSG_INFO
                   "%s: Unsupported command %s"
                   [Arg.str (lit "wpa_driver_nl80211_driver_cmd"), Arg.str cmd]],
                 buf := st.buf }) := by
  obtain ⟨k, hk⟩ := lowerStr_of_mem cmd h0
  have h1 : k ≠ key "STOP" :=
    key_ne_of_ne cmd (lit "STOP") k _ hk rfl (hno _ (by simp [rule_tests]))
  have h2 : k ≠ key "START" :=
    key_ne_of_ne cmd (lit "START") k _ hk rfl (hno _ (by simp [rule_tests]))
  have h3 : k ≠ key "RELOAD" :=
    key_ne_of_ne cmd (lit "RELOAD") k _ hk rfl (hno _ (by simp [rule_tests]))
  have h4 : k.take 11 ≠ key "BTCOEXMODE " :=
    take_ne_of_ne 11 cmd (lit "BTCOEXMODE ") k (key "BTCOEXMODE ") hk rfl
      (hno _ (by simp [rule_tests]))
  have h5 : k ≠ key "MACADDR" :=
    key_ne_of_ne cmd (lit "MACADDR") k _ hk rfl (hno _ (by simp [rule_tests]))
  have h6 : k.take 13 ≠ key "RXFILTER-ADD " :=
    take_ne_of_ne 13 cmd (lit "RXFILTER-ADD ") k (key "RXFILTER-ADD ") hk rfl
      (hno _ (by simp [rule_tests]))
  have h7 : k.take 16 ≠ key "RXFILTER-REMOVE " :=
    take_ne_of_ne 16 cmd (lit "RXFILTER-REMOVE ") k (key "RXFILTER-REMOVE ") hk rfl
      (hno _ (by simp [rule_tests]))
  have h8 : k ≠ key "RXFILTER-START" :=
    key_ne_of_ne cmd (lit "RXFILTER-START") k _ hk rfl (hno _ (by simp [rule_tests]))
  have h9 : k ≠ key "RXFILTER-STOP" :=
    key_ne_of_ne cmd (lit "RXFILTER-STOP") k _ hk rfl (hno _ (by simp [rule_tests]))
  have h10 : k.take 9 ≠ key "DROPBCAST" :=
    take_ne_of_ne 9 cmd (lit "DROPBCAST") k (key "DROPBCAST") hk rfl
      (hno _ (by simp [rule_tests]))
  have h11 : k.take 8 ≠ key "SETBAND " :=
    take_ne_of_ne 8 cmd (lit "SETBAND ") k (key "SETBAND ") hk rfl
      (hno _ (by simp [rule_tests]))
  rw [driver_cmd_by_key env st cmd buf_len k hk]
  unfold dispatch_by_key
  rw [if_neg h1, if_neg h2, if_neg h3, if_neg h4, if_neg h5, if_neg h6, if_neg h7, if_neg h8,
    if_neg h9, if_neg h10, if_neg h11]
  rfl

/-- A command no rule knows, `"SCAN-ACTIVE"`, returns 0 and only logs. -/
theorem unsupported_command_returns_zero_witness :
    wpa_driver_nl80211_driver_cmd env_ok (st0 4) (lit "SCAN-ACTIVE") 4 =
      some (0, { g_drv_errors := 0,
                 trace := [Event.wpa_printf Level.MSG_INFO "%s: Unsupported command %s"
                   [Arg.str (lit "wpa_driver_nl80211_driver_cmd"), Arg.str (lit "SCAN-ACTIVE")]],
                 buf := [1, 1, 1, 1] }) :=
  unsupported_command_returns_zero env_ok (st0 4) (lit "SCAN-ACTIVE") 4 (by decide) (by decide)

/-- C2: whatever the interface toggle answers, `STOP` makes exactly the calls
[set interface down, notify "STOPPED"], `START` exactly [set interface up, notify "STARTED"],
and `RELOAD` exactly [notify "HANGED"] with no driver primitive; each sends one notification,
after the interface call, and returns 0. -/
theorem stop_start_reload_notify (env : Env) (st : State) (cmd : List Nat) (buf_len : Nat) :
    (os_strcasecmp cmd (lit "STOP") = some 0 →
      wpa_driver_nl80211_driver_cmd env st cmd buf_len =
        some (0, { g_drv_errors := st.g_drv_errors,
                   trace := st.trace ++ [Event.linux_set_iface_flags 0,
                     Event.wpa_msg Level.MSG_INFO "CTRL-EVENT-DRIVER-STATE STOPPED"],
                   buf := st.buf })) ∧
    (os_strcasecmp cmd (lit "START") = some 0 →
      wpa_driver_nl80211_driver_cmd env st cmd buf_len =
        some (0, { g_drv_errors := st.g_drv_errors,
                   trace := st.trace ++ [Event.linux_set_iface_flags 1,
                     Event.wpa_msg Level.MSG_INFO "CTRL-EVENT-DRIVER-STATE STARTED"],
                   buf := st.buf })) ∧
    (os_strcasecmp cmd (lit "RELOAD") = some 0 →
      wpa_driver_nl80211_driver_cmd env st cmd buf_len =
        some (0, { g_drv_errors := st.g_drv_errors,
                   trace := st.trace ++
                     [Event.wpa_msg Level.MSG_INFO "CTRL-EVENT-DRIVER-STATE HANGED"],
                   buf := st.buf })) := by
  refine ⟨?_, ?_, ?_⟩
  · intro h
    obtain ⟨k, hk, hl⟩ := os_strcasecmp_zero cmd _ h
    have hkey : k = key "STOP" := Option.some.inj (hl.symm.trans rfl)
    rw [driver_cmd_by_key env st cmd buf_len k hk, hkey]
    simp [dispatch_by_key, State.emit, WPA_EVENT_DRIVER_STATE]
  · intro h
    obtain ⟨k, hk, hl⟩ := os_strcasecmp_zero cmd _ h
    have hkey : k = key "START" := Option.some.inj (hl.symm.trans rfl)
    rw [driver_cmd_by_key env st cmd buf_len k hk, hkey]
    simp [dispatch_by_key, State.emit, WPA_EVENT_DRIVER_STATE, key, tolower]
  · intro h
    obtain ⟨k, hk, hl⟩ := os_strcasecmp_zero cmd _ h
    have hkey : k = key "RELOAD" := Option.some.inj (hl.symm.trans rfl)
    rw [driver_cmd_by_key env st cmd buf_len k hk, hkey]
    simp [dispatch_by_key, State.emit, WPA_EVENT_DRIVER_STATE, key, tolower]

/-- The three commands in mixed case, with an interface toggle that fails. -/
theorem stop_start_reload_notify_witness :
    wpa_driver_nl80211_driver_cmd { env_ok with linux_set_iface_flags := fun _ => -1 }
        (st0 0) (lit "Stop") 0 =
      some (0, { g_drv_errors := 0,
                 trace := [Event.linux_set_iface_flags 0,
                   Event.wpa_msg Level.MSG_INFO "CTRL-EVENT-DRIVER-STATE STOPPED"],
                 buf := [] }) ∧
    wpa_driver_nl80211_driver_cmd { env_ok with linux_set_iface_flags := fun _ => -1 }
        (st0 0) (lit "start") 0 =
      some (0, { g_drv_errors := 0,
                 trace := [Event.linux_set_iface_flags 1,
                   Event.wpa_msg Level.MSG_INFO "CTRL-EVENT-DRIVER-STATE STARTED"],
                 buf := [] }) ∧
    wpa_driver_nl80211_driver_cmd { env_ok with linux_set_iface_flags := fun _ => -1 }
        (st0 0) (lit "RELOAD") 0 =
      some (0, { g_drv_errors := 0,
                 trace := [Event.wpa_msg Level.MSG_INFO "CTRL-EVENT-DRIVER-STATE HANGED"],
                 buf := [] }) :=
  ⟨(stop_start_reload_notify _ (st0 0) (lit "Stop") 0).1 (by decide),
   (stop_start_reload_notify _ (st0 0) (lit "start") 0).2.1 (by decide),
   (stop_start_reload_notify _ (st0 0) (lit "RELOAD") 0).2.2 (by decide)⟩

/-- The formatted text always has 28 bytes. -/
theorem macaddr_text_length (a : List Nat) : (macaddr_text a).length = 28 := by
  simp [macaddr_text, MACSTR, hex2]

/-- A command equal to `MACADDR` without regard to case runs the `MACADDR` branch. -/
theorem driver_cmd_macaddr (env : Env) (st : State) (cmd : List Nat) (buf_len : Nat)
    (h : os_strcasecmp cmd (lit "MACADDR") = some 0) :
    wpa_driver_nl80211_driver_cmd env st cmd buf_len = some (cmd_macaddr env st buf_len) := by
  obtain ⟨k, hk, hl⟩ := os_strcasecmp_zero cmd _ h
  have hkey : k = key "MACADDR" := Option.some.inj (hl.symm.trans rfl)
  rw [driver_cmd_by_key env st cmd buf_len k hk, hkey]
  simp [dispatch_by_key, key, tolower]

/-- C3: when the address query succeeds with the six bytes `a0 .. a5` and the capacity holds the
text and its terminator (29 bytes), `MACADDR` stores `Macaddr = XX:XX:XX:XX:XX:XX` and a line
feed, each `XX` the two upper-case hexadecimal digits of the byte, followed by NUL, leaves the
rest of the buffer alone and returns 28. -/
theorem macaddr_writes_text (env : Env) (st : State) (cmd : List Nat) (buf_len : Nat)
    (a0 a1 a2 a3 a4 a5 : Nat)
    (hcmd : os_strcasecmp cmd (lit "MACADDR") = some 0)
    (hq : env.linux_get_ifhwaddr = (0, [a0, a1, a2, a3, a4, a5]))
    (h0 : a0 < 256) (h1 : a1 < 256) (h2 : a2 < 256) (h3 : a3 < 256) (h4 : a4 < 256)
    (h5 : a5 < 256) (hlen : 29 ≤ buf_len) :
    wpa_driver_nl80211_driver_cmd env st cmd buf_len =
      some (28, { g_drv_errors := st.g_drv_errors,
                  trace := st.trace ++ [Event.linux_get_ifhwaddr],
                  buf := [77, 97, 99, 97, 100, 100, 114, 32, 61, 32,
                          hexdigit (a0 / 16), hexdigit (a0 % 16), 58,
                          hexdigit (a1 / 16), hexdigit (a1 % 16), 58,
                          hexdigit (a2 / 16), hexdigit (a2 % 16), 58,
                          hexdigit (a3 / 16), hexdigit (a3 % 16), 58,
                          hexdigit (a4 / 16), hexdigit (a4 % 16), 58,
                          hexdigit (a5 / 16), hexdigit (a5 % 16), 10, 0] ++ st.buf.drop 29 }) := by
  rw [driver_cmd_macaddr env st cmd buf_len hcmd]
  have ht : List.take (buf_len - 1) (macaddr_text [a0, a1, a2, a3, a4, a5]) =
      macaddr_text [a0, a1, a2, a3, a4, a5] :=
    List.take_of_length_le (by rw [macaddr_text_length]; omega)
  have hz : buf_len ≠ 0 := by omega
  simp only [cmd_macaddr, hq, if_true, os_snprintf, os_snprintf_stored, hz, if_false, ht,
    macaddr_text_length, State.emit]
  simp [macaddr_text, MACSTR, hex2, Nat.mod_eq_of_lt, h0, h1, h2, h3, h4, h5]

/-- The address `00:1A:2B:3C:4D:FF` in a buffer of 32 bytes. -/
theorem macaddr_writes_text_witness :
    wpa_driver_nl80211_driver_cmd env_ok (st0 32) (lit "MACADDR") 32 =
      some (28, { g_drv_errors := 0,
                  trace := [Event.linux_get_ifhwaddr],
                  buf := lit "Macaddr = 00:1A:2B:3C:4D:FF\n" ++ [1, 1, 1] }) :=
  macaddr_writes_text env_ok (st0 32) (lit "MACADDR") 32 0 26 43 60 77 255 (by decide) rfl
    (by decide) (by decide) (by decide) (by decide) (by decide) (by decide) (by decide)

/-- C4: when the address query fails with a negative status, `MACADDR` returns that status and
the output buffer keeps every byte; the query is the only call made. -/
theorem macaddr_query_failure (env : Env) (st : State) (cmd : List Nat) (buf_len : Nat)
    (hcmd : os_strcasecmp cmd (lit "MACADDR") = some 0)
    (hq : env.linux_get_ifhwaddr.1 < 0) :
    wpa_driver_nl80211_driver_cmd env st cmd buf_len =
      some (env.linux_get_ifhwaddr.1,
        { g_drv_errors := st.g_drv_errors,
          trace := st.trace ++ [Event.linux_get_ifhwaddr],
          buf := st.buf }) := by
  rw [driver_cmd_macaddr env st cmd buf_len hcmd]
  have hne : env.linux_get_ifhwaddr.1 ≠ 0 := by omega
  simp [cmd_macaddr, hne, State.emit]

/-- A query that fails with -1 on a buffer of four bytes. -/
theorem macaddr_query_failure_witness :
    wpa_driver_nl80211_driver_cmd { env_ok with linux_get_ifhwaddr := (-1, [0, 0, 0, 0, 0, 0]) }
        (st0 4) (lit "macaddr") 4 =
      some (-1, { g_drv_errors := 0, trace := [Event.linux_get_ifhwaddr], buf := [1, 1, 1, 1] }) :=
  macaddr_query_failure { env_ok with linux_get_ifhwaddr := (-1, [0, 0, 0, 0, 0, 0]) }
    (st0 4) (lit "macaddr") 4 (by decide) (by decide)

/-- C5, as stated, fails: with a capacity of 10 the dispatcher stores 10 bytes, nine of the
text and a NUL, and returns 28. -/
theorem macaddr_truncated_status :
    wpa_driver_nl80211_driver_cmd env_ok (st0 10) (lit "MACADDR") 10 =
        some (28, { g_drv_errors := 0,
                    trace := [Event.linux_get_ifhwaddr],
                    buf := lit "Macaddr =" }) ∧
      os_snprintf_stored 10 (macaddr_text env_ok.linux_get_ifhwaddr.2) = lit "Macaddr =" ∧
      (lit "Macaddr =").length = 10 := by
  decide

/-- C5, amended: when the address query succeeds, the status of `MACADDR` is 28, the length of
the whole text, for every capacity; the dispatcher stores `min 29 buf_len` bytes at the start of
the buffer (text, then NUL), which is the text and its terminator when the capacity is at least
29 and a cut text otherwise. -/
theorem macaddr_status_is_text_length (env : Env) (st : State) (cmd : List Nat) (buf_len : Nat)
    (hcmd : os_strcasecmp cmd (lit "MACADDR") = some 0)
    (hq : env.linux_get_ifhwaddr.1 = 0) :
    wpa_driver_nl80211_driver_cmd env st cmd buf_len =
        some (28, { g_drv_errors := st.g_drv_errors,
                    trace := st.trace ++ [Event.linux_get_ifhwaddr],
                    buf := os_snprintf_stored buf_len (macaddr_text env.linux_get_ifhwaddr.2) ++
                      st.buf.drop (min 29 buf_len) }) ∧
      (os_snprintf_stored buf_len (macaddr_text env.linux_get_ifhwaddr.2)).length
        = min 29 buf_len ∧
      (29 ≤ buf_len → os_snprintf_stored buf_len (macaddr_text env.linux_get_ifhwaddr.2) =
        macaddr_text env.linux_get_ifhwaddr.2 ++ [0]) ∧
      (0 < buf_len → os_snprintf_stored buf_len (macaddr_text env.linux_get_ifhwaddr.2) =
        (macaddr_text env.linux_get_ifhwaddr.2).take (buf_len - 1) ++ [0]) := by
  have hl : (os_snprintf_stored buf_len (macaddr_text env.linux_get_ifhwaddr.2)).length
      = min 29 buf_len := by
    unfold os_snprintf_stored
    by_cases hz : buf_len = 0
    · simp [hz]
    · simp [hz, macaddr_text_length]
      omega
  refine ⟨?_, hl, ?_, ?_⟩
  · rw [driver_cmd_macaddr env st cmd buf_len hcmd]
    simp [cmd_macaddr, hq, os_snprintf, hl, macaddr_text_length, State.emit]
  · intro h
    have hz : buf_len ≠ 0 := by omega
    simp only [os_snprintf_stored, hz, if_false]
    rw [List.take_of_length_le (by rw [macaddr_text_length]; omega)]
  · intro h
    have hz : buf_len ≠ 0 := by omega
    simp only [os_snprintf_stored, hz, if_false]

/-- Capacities 0, 10 and 40 with the address `00:1A:2B:3C:4D:FF`. -/
theorem macaddr_status_is_text_length_witness :
    (wpa_driver_nl80211_driver_cmd env_ok (st0 3) (lit "MACADDR") 0).map Prod.fst = some 28 ∧
      (wpa_driver_nl80211_driver_cmd env_ok (st0 10) (lit "MACADDR") 10).map Prod.fst = some 28 ∧
      (wpa_driver_nl80211_driver_cmd env_ok (st0 40) (lit "MACADDR") 40).map Prod.fst = some 28 :=
  ⟨by rw [(macaddr_status_is_text_length env_ok (st0 3) (lit "MACADDR") 0 (by decide) rfl).1]; rfl,
   by rw [(macaddr_status_is_text_length env_ok (st0 10) (lit "MACADDR") 10 (by decide) rfl).1]; rfl,
   by rw [(macaddr_status_is_text_length env_ok (st0 40) (lit "MACADDR") 40 (by decide) rfl).1]; rfl⟩

/-- A terminated command that starts with `BTCOEXMODE ` without regard to case runs the
`BTCOEXMODE ` branch. -/
theorem driver_cmd_btcoexmode (env : Env) (st : State) (cmd : List Nat) (buf_len : Nat)
    (h0 : 0 ∈ cmd) (h : os_strncasecmp cmd (lit "BTCOEXMODE ") 11 = some 0) :
    wpa_driver_nl80211_driver_cmd env st cmd buf_len = cmd_btcoexmode env st cmd := by
  obtain ⟨k, hk⟩ := lowerStr_of_mem cmd h0
  have ht : k.take 11 = key "BTCOEXMODE " :=
    take_eq_of_zero 11 cmd (lit "BTCOEXMODE ") k (key "BTCOEXMODE ") hk rfl h
  rw [driver_cmd_by_key env st cmd buf_len k hk]
  have hsplit : k = key "BTCOEXMODE " ++ k.drop 11 := by
    rw [← ht, List.take_append_drop]
  rw [hsplit]
  simp [dispatch_by_key, key, tolower]

/-- A terminated command that starts with `RXFILTER-ADD ` runs the branch of lines 113-116. -/
theorem driver_cmd_rxfilter_add (env : Env) (st : State) (cmd : List Nat) (buf_len : Nat)
    (h0 : 0 ∈ cmd) (h : os_strncasecmp cmd (lit "RXFILTER-ADD ") 13 = some 0) :
    wpa_driver_nl80211_driver_cmd env st cmd buf_len = some (cmd_rxfilter env st cmd 13 1) := by
  obtain ⟨k, hk⟩ := lowerStr_of_mem cmd h0
  have ht : k.take 13 = key "RXFILTER-ADD " :=
    take_eq_of_zero 13 cmd (lit "RXFILTER-ADD ") k (key "RXFILTER-ADD ") hk rfl h
  rw [driver_cmd_by_key env st cmd buf_len k hk]
  have hsplit : k = key "RXFILTER-ADD " ++ k.drop 13 := by
    rw [← ht, List.take_append_drop]
  rw [hsplit]
  simp [dispatch_by_key, key, tolower]

/-- A terminated command that starts with `RXFILTER-REMOVE ` runs the branch of lines
118-121. -/
theorem driver_cmd_rxfilter_remove (env : Env) (st : State) (cmd : List Nat) (buf_len : Nat)
    (h0 : 0 ∈ cmd) (h : os_strncasecmp cmd (lit "RXFILTER-REMOVE ") 16 = some 0) :
    wpa_driver_nl80211_driver_cmd env st cmd buf_len = some (cmd_rxfilter env st cmd 16 0) := by
  obtain ⟨k, hk⟩ := lowerStr_of_mem cmd h0
  have ht : k.take 16 = key "RXFILTER-REMOVE " :=
    take_eq_of_zero 16 cmd (lit "RXFILTER-REMOVE ") k (key "RXFILTER-REMOVE ") hk rfl h
  rw [driver_cmd_by_key env st cmd buf_len k hk]
  have hsplit : k = key "RXFILTER-REMOVE " ++ k.drop 16 := by
    rw [← ht, List.take_append_drop]
  rw [hsplit]
  simp [dispatch_by_key, key, tolower]

/-- A terminated command that starts with `DROPBCAST` runs the `DROPBCAST` branch. -/
theorem driver_cmd_dropbcast (env : Env) (st : State) (cmd : List Nat) (buf_len : Nat)
    (h0 : 0 ∈ cmd) (h : os_strncasecmp cmd (lit "DROPBCAST") 9 = some 0) :
    wpa_driver_nl80211_driver_cmd env st cmd buf_len = cmd_dropbcast env st cmd buf_len := by
  obtain ⟨k, hk⟩ := lowerStr_of_mem cmd h0
  have ht : k.take 9 = key "DROPBCAST" :=
    take_eq_of_zero 9 cmd (lit "DROPBCAST") k (key "DROPBCAST") hk rfl h
  rw [driver_cmd_by_key env st cmd buf_len k hk]
  have hsplit : k = key "DROPBCAST" ++ k.drop 9 := by
    rw [← ht, List.take_append_drop]
  rw [hsplit]
  simp [dispatch_by_key, key, tolower]

/-- A terminated command that starts with `SETBAND ` runs the `SETBAND ` branch. -/
theorem driver_cmd_setband (env : Env) (st : State) (cmd : List Nat) (buf_len : Nat)
    (h0 : 0 ∈ cmd) (h : os_strncasecmp cmd (lit "SETBAND ") 8 = some 0) :
    wpa_driver_nl80211_driver_cmd env st cmd buf_len = cmd_setband st cmd := by
  obtain ⟨k, hk⟩ := lowerStr_of_mem cmd h0
  have ht : k.take 8 = key "SETBAND " :=
    take_eq_of_zero 8 cmd (lit "SETBAND ") k (key "SETBAND ") hk rfl h
  rw [driver_cmd_by_key env st cmd buf_len k hk]
  have hsplit : k = key "SETBAND " ++ k.drop 8 := by
    rw [← ht, List.take_append_drop]
  rw [hsplit]
  simp [dispatch_by_key, key, tolower]

/-- C6, as stated, fails twice. When the control file cannot be opened, `BTCOEXMODE 1` attempts
no write and returns -1; when the write stores its one byte and so returns 1, the dispatcher
returns 1, not 0. -/
theorem btcoexmode_not_always_one_write :
    wpa_driver_nl80211_driver_cmd { env_ok with open_bt_coex_state := -1 } (st0 0)
        (lit "BTCOEXMODE 1") 0 =
      some (-1, { g_drv_errors := 0, trace := [Event.open_bt_coex_state], buf := [] }) ∧
    env_ok.write [48] = 1 ∧
    (wpa_driver_nl80211_driver_cmd env_ok (st0 0) (lit "BTCOEXMODE 1") 0).map Prod.fst =
      some 1 := by
  decide

/-- C6, amended: for a command `BTCOEXMODE ` followed by the integer 1 (resp. 2), when the control
file opens, the dispatcher makes exactly the calls [open, write of the single byte '0'
(resp. '1'), close, debug log] and returns the value the write returned, unchanged. -/
theorem btcoexmode_one_write_when_open (env : Env) (st : State) (cmd : List Nat)
    (buf_len : Nat) (h0 : 0 ∈ cmd)
    (hp : os_strncasecmp cmd (lit "BTCOEXMODE ") 11 = some 0)
    (hopen : env.open_bt_coex_state ≠ -1) :
    (atoi (cmd.drop 11) = some 1 →
      wpa_driver_nl80211_driver_cmd env st cmd buf_len =
        some (env.write [48],
          { g_drv_errors := st.g_drv_errors,
            trace := st.trace ++ [Event.open_bt_coex_state, Event.write [48], Event.close,
              Event.wpa_printf Level.MSG_DEBUG "%s:  set btcoex state to '%c' result = %d"
                [Arg.str (lit "wpa_driver_toggle_btcoex_state"), Arg.chr 48,
                  Arg.int (env.write [48])]],
            buf := st.buf })) ∧
    (atoi (cmd.drop 11) = some 2 →
      wpa_driver_nl80211_driver_cmd env st cmd buf_len =
        some (env.write [49],
          { g_drv_errors := st.g_drv_errors,
            trace := st.trace ++ [Event.open_bt_coex_state, Event.write [49], Event.close,
              Event.wpa_printf Level.MSG_DEBUG "%s:  set btcoex state to '%c' result = %d"
                [Arg.str (lit "wpa_driver_toggle_btcoex_state"), Arg.chr 49,
                  Arg.int (env.write [49])]],
            buf := st.buf })) := by
  rw [driver_cmd_btcoexmode env st cmd buf_len h0 hp]
  constructor
  · intro hm
    simp [cmd_btcoexmode, hm, wpa_driver_toggle_btcoex_state, hopen, State.emit,
      BLUETOOTH_COEXISTENCE_MODE_DISABLED]
  · intro hm
    simp [cmd_btcoexmode, hm, wpa_driver_toggle_btcoex_state, hopen, State.emit,
      BLUETOOTH_COEXISTENCE_MODE_DISABLED, BLUETOOTH_COEXISTENCE_MODE_SENSE]

/-- Modes 1 and 2 with a write that fails with -1. -/
theorem btcoexmode_one_write_when_open_witness :
    (wpa_driver_nl80211_driver_cmd { env_ok with write := fun _ => -1 } (st0 0)
        (lit "BTCOEXMODE 1") 0).map Prod.fst = some (-1) ∧
      (wpa_driver_nl80211_driver_cmd { env_ok with write := fun _ => -1 } (st0 0)
        (lit "btcoexmode 2") 0).map Prod.fst = some (-1) :=
  ⟨by rw [(btcoexmode_one_write_when_open { env_ok with write := fun _ => -1 } (st0 0)
      (lit "BTCOEXMODE 1") 0 (by decide) (by decide) (by decide)).1 (by decide)]; rfl,
   by rw [(btcoexmode_one_write_when_open { env_ok with write := fun _ => -1 } (st0 0)
      (lit "btcoexmode 2") 0 (by decide) (by decide) (by decide)).2 (by decide)]; rfl⟩

/-- A text whose value fits `int` is read by `atoi` as that value. -/
theorem atoi_of_int_range (s : List Nat) (v : Int) (h : atoi_skip s = some v)
    (hlo : INT_MIN ≤ v) (hhi : v ≤ INT_MAX) : atoi s = some v := by
  unfold INT_MIN at hlo
  unfold INT_MAX at hhi
  have h1 : ¬ v < LONG_MIN := by
    unfold LONG_MIN
    omega
  have h2 : ¬ LONG_MAX < v := by
    unfold LONG_MAX
    omega
  have h3 : wrap_int v = v := by
    unfold wrap_int
    omega
  simp [atoi, h, h1, h2, h3]

/-- C7, as stated, fails for integers beyond the range of `int`: the text `4294967297` is an
integer other than 1 and 2, yet `BTCOEXMODE 4294967297` is read as mode 1, the byte '0' is
written to the control file and the result of the write is returned. -/
theorem btcoexmode_beyond_int_is_written :
    atoi_skip ((lit "BTCOEXMODE 4294967297").drop 11) = some 4294967297 ∧
      wpa_driver_nl80211_driver_cmd env_ok (st0 0) (lit "BTCOEXMODE 4294967297") 0 =
        some (1, { g_drv_errors := 0,
                   trace := [Event.open_bt_coex_state, Event.write [48], Event.close,
                     Event.wpa_printf Level.MSG_DEBUG "%s:  set btcoex state to '%c' result = %d"
                       [Arg.str (lit "wpa_driver_toggle_btcoex_state"), Arg.chr 48, Arg.int 1]],
                   buf := [] }) := by
  decide

/-- C7, amended: for a terminated command `BTCOEXMODE ` followed by an integer `m` within the
range of `int` and other than 1 and 2 (0, negative and larger values alike), the dispatcher
returns -1; its only call is the "invalid btcoex mode" log line, so the control file is neither
opened nor written. -/
theorem btcoexmode_invalid_mode (env : Env) (st : State) (cmd : List Nat) (buf_len : Nat)
    (m : Int) (h0 : 0 ∈ cmd)
    (hp : os_strncasecmp cmd (lit "BTCOEXMODE ") 11 = some 0)
    (hm : atoi_skip (cmd.drop 11) = some m) (hlo : INT_MIN ≤ m) (hhi : m ≤ INT_MAX)
    (h1 : m ≠ 1) (h2 : m ≠ 2) :
    wpa_driver_nl80211_driver_cmd env st cmd buf_len =
      some (-1, { g_drv_errors := st.g_drv_errors,
                  trace := st.trace ++
                    [Event.wpa_printf Level.MSG_DEBUG "invalid btcoex mode: %d" [Arg.int m]],
                  buf := st.buf }) := by
  rw [driver_cmd_btcoexmode env st cmd buf_len h0 hp]
  simp [cmd_btcoexmode, atoi_of_int_range _ m hm hlo hhi, h1, h2, State.emit,
    BLUETOOTH_COEXISTENCE_MODE_DISABLED, BLUETOOTH_COEXISTENCE_MODE_SENSE]

/-- Modes -5, 0 and 2147483647 are refused without touching the control file. -/
theorem btcoexmode_invalid_mode_witness :
    wpa_driver_nl80211_driver_cmd env_ok (st0 0) (lit "BTCOEXMODE -5") 0 =
        some (-1, { g_drv_errors := 0,
                    trace := [] ++ [Event.wpa_printf Level.MSG_DEBUG "invalid btcoex mode: %d"
                      [Arg.int (-5)]],
                    buf := [] }) ∧
      wpa_driver_nl80211_driver_cmd env_ok (st0 0) (lit "BTCOEXMODE 0") 0 =
        some (-1, { g_drv_errors := 0,
                    trace := [] ++ [Event.wpa_printf Level.MSG_DEBUG "invalid btcoex mode: %d"
                      [Arg.int 0]],
                    buf := [] }) ∧
      wpa_driver_nl80211_driver_cmd env_ok (st0 0) (lit "BTCOEXMODE 2147483647") 0 =
        some (-1, { g_drv_errors := 0,
                    trace := [] ++ [Event.wpa_printf Level.MSG_DEBUG "invalid btcoex mode: %d"
                      [Arg.int 2147483647]],
                    buf := [] }) :=
  ⟨btcoexmode_invalid_mode env_ok (st0 0) (lit "BTCOEXMODE -5") 0 (-5) (by decide) (by decide)
      (by decide) (by decide) (by decide) (by decide) (by decide),
   btcoexmode_invalid_mode env_ok (st0 0) (lit "BTCOEXMODE 0") 0 0 (by decide) (by decide)
      (by decide) (by decide) (by decide) (by decide) (by decide),
   btcoexmode_invalid_mode env_ok (st0 0) (lit "BTCOEXMODE 2147483647") 0 2147483647 (by decide)
      (by decide) (by decide) (by decide) (by decide) (by decide) (by decide)⟩

/-- C8: for a terminated command `RXFILTER-ADD ` (resp. `RXFILTER-REMOVE `) with payload `p`, a
negative parser result is returned as it is with no call made; otherwise exactly one trigger
toggle is called, with the parsed index and enabled = 1 (resp. 0), and its status is returned
unchanged. No notification is sent and the output buffer is not written. -/
theorem rxfilter_add_remove (env : Env) (st : State) (cmd : List Nat) (buf_len : Nat)
    (h0 : 0 ∈ cmd) :
    (os_strncasecmp cmd (lit "RXFILTER-ADD ") 13 = some 0 →
      (env.nl80211_parse_wowlan_trigger_nr (cmd.drop 13) < 0 →
        wpa_driver_nl80211_driver_cmd env st cmd buf_len =
          some (env.nl80211_parse_wowlan_trigger_nr (cmd.drop 13), st)) ∧
      (0 ≤ env.nl80211_parse_wowlan_trigger_nr (cmd.drop 13) →
        wpa_driver_nl80211_driver_cmd env st cmd buf_len =
          some (env.nl80211_toggle_wowlan_trigger
              (env.nl80211_parse_wowlan_trigger_nr (cmd.drop 13)) 1,
            { g_drv_errors := st.g_drv_errors,
              trace := st.trace ++ [Event.nl80211_toggle_wowlan_trigger
                (env.nl80211_parse_wowlan_trigger_nr (cmd.drop 13)) 1],
              buf := st.buf }))) ∧
    (os_strncasecmp cmd (lit "RXFILTER-REMOVE ") 16 = some 0 →
      (env.nl80211_parse_wowlan_trigger_nr (cmd.drop 16) < 0 →
        wpa_driver_nl80211_driver_cmd env st cmd buf_len =
          some (env.nl80211_parse_wowlan_trigger_nr (cmd.drop 16), st)) ∧
      (0 ≤ env.nl80211_parse_wowlan_trigger_nr (cmd.drop 16) →
        wpa_driver_nl80211_driver_cmd env st cmd buf_len =
          some (env.nl80211_toggle_wowlan_trigger
              (env.nl80211_parse_wowlan_trigger_nr (cmd.drop 16)) 0,
            { g_drv_errors := st.g_drv_errors,
              trace := st.trace ++ [Event.nl80211_toggle_wowlan_trigger
                (env.nl80211_parse_wowlan_trigger_nr (cmd.drop 16)) 0],
              buf := st.buf }))) := by
  constructor
  · intro hp
    rw [driver_cmd_rxfilter_add env st cmd buf_len h0 hp]
    constructor
    · intro hneg
      simp [cmd_rxfilter, hneg]
    · intro hpos
      have hnot : ¬ env.nl80211_parse_wowlan_trigger_nr (cmd.drop 13) < 0 := by omega
      simp [cmd_rxfilter, hnot, State.emit]
  · intro hp
    rw [driver_cmd_rxfilter_remove env st cmd buf_len h0 hp]
    constructor
    · intro hneg
      simp [cmd_rxfilter, hneg]
    · intro hpos
      have hnot : ¬ env.nl80211_parse_wowlan_trigger_nr (cmd.drop 16) < 0 := by omega
      simp [cmd_rxfilter, hnot, State.emit]

/-- Index 3 is toggled on by `RXFILTER-ADD 3` and off by `rxfilter-remove 3`, with a toggle
that answers -7; an index the parser refuses with -1 is not toggled. -/
theorem rxfilter_add_remove_witness :
    wpa_driver_nl80211_driver_cmd { env_ok with nl80211_toggle_wowlan_trigger := fun _ _ => -7 }
        (st0 0) (lit "RXFILTER-ADD 3") 0 =
      some (-7, { g_drv_errors := 0,
                  trace := [Event.nl80211_toggle_wowlan_trigger 3 1], buf := [] }) ∧
    wpa_driver_nl80211_driver_cmd { env_ok with nl80211_toggle_wowlan_trigger := fun _ _ => -7 }
        (st0 0) (lit "rxfilter-remove 3") 0 =
      some (-7, { g_drv_errors := 0,
                  trace := [Event.nl80211_toggle_wowlan_trigger 3 0], buf := [] }) ∧
    wpa_driver_nl80211_driver_cmd { env_ok with nl80211_parse_wowlan_trigger_nr := fun _ => -1 }
        (st0 0) (lit "RXFILTER-ADD x") 0 = some (-1, st0 0) :=
  ⟨((rxfilter_add_remove { env_ok with nl80211_toggle_wowlan_trigger := fun _ _ => -7 }
      (st0 0) (lit "RXFILTER-ADD 3") 0 (by decide)).1 (by decide)).2 (by decide),
   ((rxfilter_add_remove { env_ok with nl80211_toggle_wowlan_trigger := fun _ _ => -7 }
      (st0 0) (lit "rxfilter-remove 3") 0 (by decide)).2 (by decide)).2 (by decide),
   ((rxfilter_add_remove { env_ok with nl80211_parse_wowlan_trigger_nr := fun _ => -1 }
      (st0 0) (lit "RXFILTER-ADD x") 0 (by decide)).1 (by decide)).1 (by decide)⟩

/-- C9: `RXFILTER-START` (resp. `RXFILTER-STOP`) makes exactly one call, the bulk trigger
call with enabled = 1 (resp. 0), and returns its status unchanged whatever it is; no
notification is sent and the output buffer is not written. -/
theorem rxfilter_start_stop (env : Env) (st : State) (cmd : List Nat) (buf_len : Nat) :
    (os_strcasecmp cmd (lit "RXFILTER-START") = some 0 →
      wpa_driver_nl80211_driver_cmd env st cmd buf_len =
        some (env.nl80211_set_wowlan_triggers 1,
          { g_drv_errors := st.g_drv_errors,
            trace := st.trace ++ [Event.nl80211_set_wowlan_triggers 1],
            buf := st.buf })) ∧
    (os_strcasecmp cmd (lit "RXFILTER-STOP") = some 0 →
      wpa_driver_nl80211_driver_cmd env st cmd buf_len =
        some (env.nl80211_set_wowlan_triggers 0,
          { g_drv_errors := st.g_drv_errors,
            trace := st.trace ++ [Event.nl80211_set_wowlan_triggers 0],
            buf := st.buf })) := by
  constructor
  · intro h
    obtain ⟨k, hk, hl⟩ := os_strcasecmp_zero cmd _ h
    have hkey : k = key "RXFILTER-START" := Option.some.inj (hl.symm.trans rfl)
    rw [driver_cmd_by_key env st cmd buf_len k hk, hkey]
    simp [dispatch_by_key, State.emit, key, tolower]
  · intro h
    obtain ⟨k, hk, hl⟩ := os_strcasecmp_zero cmd _ h
    have hkey : k = key "RXFILTER-STOP" := Option.some.inj (hl.symm.trans rfl)
    rw [driver_cmd_by_key env st cmd buf_len k hk, hkey]
    simp [dispatch_by_key, State.emit, key, tolower]

/-- Both commands with a bulk call that answers 9 for enable and -3 for disable. -/
theorem rxfilter_start_stop_witness :
    wpa_driver_nl80211_driver_cmd
        { env_ok with nl80211_set_wowlan_triggers := fun e => if e = 1 then 9 else -3 }
        (st0 2) (lit "RXFILTER-START") 2 =
      some (9, { g_drv_errors := 0, trace := [Event.nl80211_set_wowlan_triggers 1],
                 buf := [1, 1] }) ∧
    wpa_driver_nl80211_driver_cmd
        { env_ok with nl80211_set_wowlan_triggers := fun e => if e = 1 then 9 else -3 }
        (st0 2) (lit "rxfilter-stop") 2 =
      some (-3, { g_drv_errors := 0, trace := [Event.nl80211_set_wowlan_triggers 0],
                  buf := [1, 1] }) :=
  ⟨(rxfilter_start_stop
      { env_ok with nl80211_set_wowlan_triggers := fun e => if e = 1 then 9 else -3 }
      (st0 2) (lit "RXFILTER-START") 2).1 (by decide),
   (rxfilter_start_stop
      { env_ok with nl80211_set_wowlan_triggers := fun e => if e = 1 then 9 else -3 }
      (st0 2) (lit "rxfilter-stop") 2).2 (by decide)⟩

/-- C10: `DROPBCAST GET` and `DROPBCAST ` (keyword, one separator, nothing else) both make the
one query call with the caller's buffer and capacity and return its status. The bare keyword
`DROPBCAST` does not: the value is read at offset 10, one byte past the terminator at offset 9.
When the object ends at the terminator the read leaves it; when the bytes `ENABLE` of an earlier
command follow the terminator, broadcast dropping is switched on and no query is made. -/
theorem dropbcast_bare_keyword_reads_past_terminator (env : Env) (st : State) (buf_len : Nat) :
    wpa_driver_nl80211_driver_cmd env st (lit "DROPBCAST GET") buf_len =
        some ((env.nl80211_dropbcast_get st.buf buf_len).1,
          { g_drv_errors := st.g_drv_errors,
            trace := st.trace ++ [Event.nl80211_dropbcast_get buf_len],
            buf := (env.nl80211_dropbcast_get st.buf buf_len).2 }) ∧
      wpa_driver_nl80211_driver_cmd env st (lit "DROPBCAST ") buf_len =
        some ((env.nl80211_dropbcast_get st.buf buf_len).1,
          { g_drv_errors := st.g_drv_errors,
            trace := st.trace ++ [Event.nl80211_dropbcast_get buf_len],
            buf := (env.nl80211_dropbcast_get st.buf buf_len).2 }) ∧
      wpa_driver_nl80211_driver_cmd env st (lit "DROPBCAST") buf_len = none ∧
      wpa_driver_nl80211_driver_cmd env st (lit "DROPBCAST" ++ lit "ENABLE") buf_len =
        some (env.nl80211_toggle_dropbcast 1,
          { g_drv_errors := st.g_drv_errors,
            trace := st.trace ++ [Event.nl80211_toggle_dropbcast 1],
            buf := st.buf }) :=
  ⟨rfl, rfl, rfl, rfl⟩

/-- On a terminated string `strlen` is the length of the lowered text. -/
theorem os_strlen_spec : ∀ (s k : List Nat), lowerStr s = some k → os_strlen s = some k.length
  | [], _, h => by simp [lowerStr] at h
  | c :: s, k, h => by
    by_cases hc : c = 0
    · simp only [lowerStr, hc, if_true, Option.some.injEq] at h
      subst h
      simp [os_strlen, hc]
    · simp only [lowerStr, hc, if_false, Option.map_eq_some'] at h
      obtain ⟨k1, hk1, rfl⟩ := h
      simp [os_strlen, hc, os_strlen_spec s k1 hk1]

/-- The `DROPBCAST` branch on a terminated value is a choice on its lowered text `kv`. -/
theorem cmd_dropbcast_by_key (env : Env) (st : State) (cmd : List Nat) (buf_len : Nat)
    (kv : List Nat) (hv : lowerStr (cmd.drop 10) = some kv) :
    cmd_dropbcast env st cmd buf_len =
      if kv = key "ENABLE" ∨ kv = key "1" then
        some (env.nl80211_toggle_dropbcast 1, st.emit (Event.nl80211_toggle_dropbcast 1))
      else if kv = key "DISABLE" ∨ kv = key "0" then
        some (env.nl80211_toggle_dropbcast 0, st.emit (Event.nl80211_toggle_dropbcast 0))
      else if kv = key "GET" ∨ kv = [] then
        some ((env.nl80211_dropbcast_get st.buf buf_len).1,
          { st.emit (Event.nl80211_dropbcast_get buf_len) with
            buf := (env.nl80211_dropbcast_get st.buf buf_len).2 })
      else
        some (-1, st.emit (Event.wpa_printf Level.MSG_ERROR "Invalid parameter for DROPBCAST: %s"
          [Arg.str (cmd.drop 10)])) := by
  obtain ⟨r1, hr1, i1⟩ := os_strcasecmp_spec (cmd.drop 10) (lit "ENABLE") kv (key "ENABLE") hv rfl
  obtain ⟨r2, hr2, i2⟩ := os_strcasecmp_spec (cmd.drop 10) (lit "1") kv (key "1") hv rfl
  obtain ⟨r3, hr3, i3⟩ :=
    os_strcasecmp_spec (cmd.drop 10) (lit "DISABLE") kv (key "DISABLE") hv rfl
  obtain ⟨r4, hr4, i4⟩ := os_strcasecmp_spec (cmd.drop 10) (lit "0") kv (key "0") hv rfl
  obtain ⟨r5, hr5, i5⟩ := os_strcasecmp_spec (cmd.drop 10) (lit "GET") kv (key "GET") hv rfl
  have h6 : os_strlen (cmd.drop 10) = some kv.length := os_strlen_spec _ _ hv
  have i6 : kv.length = 0 ↔ kv = [] := List.length_eq_zero
  unfold cmd_dropbcast
  simp only [hr1, hr2, hr3, hr4, hr5, h6, Option.some_bind, Option.map_some', i1, i2, i3, i4,
    i5, i6]
  by_cases c1 : kv = key "ENABLE"
  · simp [c1]
  by_cases c2 : kv = key "1"
  · simp [c2]
  by_cases c3 : kv = key "DISABLE"
  · simp [c3, key, tolower]
  by_cases c4 : kv = key "0"
  · simp [c4, key, tolower]
  by_cases c5 : kv = key "GET"
  · simp [c5, key, tolower]
  by_cases c6 : kv = []
  · simp [c6, key, tolower]
  · simp [c1, c2, c3, c4, c5, c6]

/-- C11: for a command whose first 9 bytes are `DROPBCAST` without regard to case and whose
value `v`, the bytes from offset 10, is a terminated text: `v` equal to `ENABLE` without regard
to case or to `1` returns the status of the drop-broadcast call with 1; `DISABLE` or `0` the
status of that call with 0; `GET` or the empty text the status of the query; every other `v`
returns -1 with the error log as only call. The byte at offset 9 is never looked at. -/
theorem dropbcast_value_dispatch (env : Env) (st : State) (cmd : List Nat) (buf_len : Nat)
    (hp : os_strncasecmp cmd (lit "DROPBCAST") 9 = some 0) (hv : 0 ∈ cmd.drop 10) :
    ((os_strcasecmp (cmd.drop 10) (lit "ENABLE") = some 0 ∨
        os_strcasecmp (cmd.drop 10) (lit "1") = some 0) →
      wpa_driver_nl80211_driver_cmd env st cmd buf_len =
        some (env.nl80211_toggle_dropbcast 1,
          { g_drv_errors := st.g_drv_errors,
            trace := st.trace ++ [Event.nl80211_toggle_dropbcast 1],
            buf := st.buf })) ∧
    ((os_strcasecmp (cmd.drop 10) (lit "DISABLE") = some 0 ∨
        os_strcasecmp (cmd.drop 10) (lit "0") = some 0) →
      wpa_driver_nl80211_driver_cmd env st cmd buf_len =
        some (env.nl80211_toggle_dropbcast 0,
          { g_drv_errors := st.g_drv_errors,
            trace := st.trace ++ [Event.nl80211_toggle_dropbcast 0],
            buf := st.buf })) ∧
    ((os_strcasecmp (cmd.drop 10) (lit "GET") = some 0 ∨ os_strlen (cmd.drop 10) = some 0) →
      wpa_driver_nl80211_driver_cmd env st cmd buf_len =
        some ((env.nl80211_dropbcast_get st.buf buf_len).1,
          { g_drv_errors := st.g_drv_errors,
            trace := st.trace ++ [Event.nl80211_dropbcast_get buf_len],
            buf := (env.nl80211_dropbcast_get st.buf buf_len).2 })) ∧
    (os_strcasecmp (cmd.drop 10) (lit "ENABLE") ≠ some 0 →
      os_strcasecmp (cmd.drop 10) (lit "1") ≠ some 0 →
      os_strcasecmp (cmd.drop 10) (lit "DISABLE") ≠ some 0 →
      os_strcasecmp (cmd.drop 10) (lit "0") ≠ some 0 →
      os_strcasecmp (cmd.drop 10) (lit "GET") ≠ some 0 →
      os_strlen (cmd.drop 10) ≠ some 0 →
      wpa_driver_nl80211_driver_cmd env st cmd buf_len =
        some (-1,
          { g_drv_errors := st.g_drv_errors,
            trace := st.trace ++ [Event.wpa_printf Level.MSG_ERROR
              "Invalid parameter for DROPBCAST: %s" [Arg.str (cmd.drop 10)]],
            buf := st.buf })) := by
  have h0 : 0 ∈ cmd := List.mem_of_mem_drop hv
  obtain ⟨kv, hkv⟩ := lowerStr_of_mem _ hv
  rw [driver_cmd_dropbcast env st cmd buf_len h0 hp, cmd_dropbcast_by_key env st cmd buf_len kv hkv]
  have hlen : os_strlen (cmd.drop 10) = some kv.length := os_strlen_spec _ _ hkv
  refine ⟨?_, ?_, ?_, ?_⟩
  · intro h
    have hc : kv = key "ENABLE" ∨ kv = key "1" := by
      rcases h with h | h
      · exact Or.inl (key_eq_of_zero _ (lit "ENABLE") kv (key "ENABLE") hkv rfl h)
      · exact Or.inr (key_eq_of_zero _ (lit "1") kv (key "1") hkv rfl h)
    rw [if_pos hc]
    rfl
  · intro h
    have hc : kv = key "DISABLE" ∨ kv = key "0" := by
      rcases h with h | h
      · exact Or.inl (key_eq_of_zero _ (lit "DISABLE") kv (key "DISABLE") hkv rfl h)
      · exact Or.inr (key_eq_of_zero _ (lit "0") kv (key "0") hkv rfl h)
    rcases hc with hc | hc <;> subst hc <;> simp [key, tolower, State.emit]
  · intro h
    have hc : kv = key "GET" ∨ kv = [] := by
      rcases h with h | h
      · exact Or.inl (key_eq_of_zero _ (lit "GET") kv (key "GET") hkv rfl h)
      · rw [hlen, Option.some.injEq] at h
        exact Or.inr (List.length_eq_zero.mp h)
    rcases hc with hc | hc <;> subst hc <;> simp [key, tolower, State.emit]
  · intro n1 n2 n3 n4 n5 n6
    have c1 : kv ≠ key "ENABLE" := key_ne_of_ne _ (lit "ENABLE") kv _ hkv rfl n1
    have c2 : kv ≠ key "1" := key_ne_of_ne _ (lit "1") kv _ hkv rfl n2
    have c3 : kv ≠ key "DISABLE" := key_ne_of_ne _ (lit "DISABLE") kv _ hkv rfl n3
    have c4 : kv ≠ key "0" := key_ne_of_ne _ (lit "0") kv _ hkv rfl n4
    have c5 : kv ≠ key "GET" := key_ne_of_ne _ (lit "GET") kv _ hkv rfl n5
    have c6 : kv ≠ [] := by
      intro h
      rw [hlen, h] at n6
      exact n6 rfl
    simp [c1, c2, c3, c4, c5, c6, State.emit]

/-- The values `enable`, `0`, `get`, the empty value and `maybe`, after the separator `=`. -/
theorem dropbcast_value_dispatch_witness :
    (wpa_driver_nl80211_driver_cmd { env_ok with nl80211_toggle_dropbcast := fun e => e + 5 }
        (st0 0) (lit "dropbcast=enable") 0).map Prod.fst = some 6 ∧
      (wpa_driver_nl80211_driver_cmd { env_ok with nl80211_toggle_dropbcast := fun e => e + 5 }
        (st0 0) (lit "DROPBCAST 0") 0).map Prod.fst = some 5 ∧
      (wpa_driver_nl80211_driver_cmd { env_ok with nl80211_dropbcast_get := fun b _ => (7, b) }
        (st0 0) (lit "DROPBCAST Get") 0).map Prod.fst = some 7 ∧
      (wpa_driver_nl80211_driver_cmd { env_ok with nl80211_dropbcast_get := fun b _ => (7, b) }
        (st0 0) (lit "DROPBCAST ") 0).map Prod.fst = some 7 ∧
      (wpa_driver_nl80211_driver_cmd env_ok (st0 0) (lit "DROPBCAST maybe") 0).map Prod.fst =
        some (-1) :=
  ⟨by rw [(dropbcast_value_dispatch { env_ok with nl80211_toggle_dropbcast := fun e => e + 5 }
      (st0 0) (lit "dropbcast=enable") 0 (by decide) (by decide)).1 (by decide)]; rfl,
   by rw [(dropbcast_value_dispatch { env_ok with nl80211_toggle_dropbcast := fun e => e + 5 }
      (st0 0) (lit "DROPBCAST 0") 0 (by decide) (by decide)).2.1 (by decide)]; rfl,
   by rw [(dropbcast_value_dispatch { env_ok with nl80211_dropbcast_get := fun b _ => (7, b) }
      (st0 0) (lit "DROPBCAST Get") 0 (by decide) (by decide)).2.2.1 (by decide)]; rfl,
   by rw [(dropbcast_value_dispatch { env_ok with nl80211_dropbcast_get := fun b _ => (7, b) }
      (st0 0) (lit "DROPBCAST ") 0 (by decide) (by decide)).2.2.1 (by decide)]; rfl,
   by rw [(dropbcast_value_dispatch env_ok (st0 0) (lit "DROPBCAST maybe") 0 (by decide)
      (by decide)).2.2.2 (by decide) (by decide) (by decide) (by decide) (by decide)
      (by decide)]; rfl⟩

/-- C12, as stated, fails for integers beyond the range of `int`: the text `4294967296` is an
integer outside `[0, 2]`, yet `SETBAND 4294967296` is read as band 0 and returns 0. -/
theorem setband_beyond_int_is_accepted :
    atoi_skip ((lit "SETBAND 4294967296").drop 8) = some 4294967296 ∧
      wpa_driver_nl80211_driver_cmd env_ok (st0 1) (lit "SETBAND 4294967296") 1 =
        some (0, st0 1) := by
  decide

/-- C12, amended: for a terminated command `SETBAND ` followed by an integer `v` within the range
of `int`, the dispatcher returns 0 when `0 ≤ v ≤ 2` and -1 otherwise; it makes no call at all
and the state, output buffer included, is the one it was given. -/
theorem setband_validates_range (env : Env) (st : State) (cmd : List Nat) (buf_len : Nat)
    (v : Int) (h0 : 0 ∈ cmd) (hp : os_strncasecmp cmd (lit "SETBAND ") 8 = some 0)
    (hv : atoi_skip (cmd.drop 8) = some v) (hlo : INT_MIN ≤ v) (hhi : v ≤ INT_MAX) :
    (∃ r, wpa_driver_nl80211_driver_cmd env st cmd buf_len = some (r, st) ∧
        (r = 0 ∨ r = -1) ∧ (r = 0 ↔ 0 ≤ v ∧ v ≤ 2)) := by
  rw [driver_cmd_setband env st cmd buf_len h0 hp]
  have ha : atoi (cmd.drop 8) = some v := atoi_of_int_range _ v hv hlo hhi
  by_cases hr : v < 0 ∨ v > 2
  · refine ⟨-1, by simp [cmd_setband, ha, hr], Or.inr rfl, ?_⟩
    constructor
    · intro h
      omega
    · intro h
      omega
  · refine ⟨0, by simp [cmd_setband, ha, hr], Or.inl rfl, ?_⟩
    constructor
    · intro _
      omega
    · intro _
      rfl

/-- Band 2 is accepted; bands 3, -1 and 2147483647 are not. -/
theorem setband_validates_range_witness :
    (∃ r, wpa_driver_nl80211_driver_cmd env_ok (st0 1) (lit "SETBAND 2") 1 = some (r, st0 1) ∧
        (r = 0 ∨ r = -1) ∧ (r = 0 ↔ (0 : Int) ≤ 2 ∧ (2 : Int) ≤ 2)) ∧
      (∃ r, wpa_driver_nl80211_driver_cmd env_ok (st0 1) (lit "setband 3") 1 = some (r, st0 1) ∧
        (r = 0 ∨ r = -1) ∧ (r = 0 ↔ (0 : Int) ≤ 3 ∧ (3 : Int) ≤ 2)) ∧
      (∃ r, wpa_driver_nl80211_driver_cmd env_ok (st0 1) (lit "SETBAND -1") 1 =
          some (r, st0 1) ∧
        (r = 0 ∨ r = -1) ∧ (r = 0 ↔ (0 : Int) ≤ -1 ∧ (-1 : Int) ≤ 2)) ∧
      (∃ r, wpa_driver_nl80211_driver_cmd env_ok (st0 1) (lit "SETBAND 2147483647") 1 =
          some (r, st0 1) ∧
        (r = 0 ∨ r = -1) ∧ (r = 0 ↔ (0 : Int) ≤ 2147483647 ∧ (2147483647 : Int) ≤ 2)) :=
  ⟨setband_validates_range env_ok (st0 1) (lit "SETBAND 2") 1 2 (by decide) (by decide)
      (by decide) (by decide) (by decide),
   setband_validates_range env_ok (st0 1) (lit "setband 3") 1 3 (by decide) (by decide)
      (by decide) (by decide) (by decide),
   setband_validates_range env_ok (st0 1) (lit "SETBAND -1") 1 (-1) (by decide) (by decide)
      (by decide) (by decide) (by decide),
   setband_validates_range env_ok (st0 1) (lit "SETBAND 2147483647") 1 2147483647 (by decide)
      (by decide) (by decide) (by decide) (by decide)⟩

/-- Counter, trace and buffer after `n` escalation calls from a counter of 0. -/
theorem hang_msgs_spec (st : State) (h : st.g_drv_errors = 0) : ∀ (n : Nat),
    (hang_msgs n st).g_drv_errors = ((n % 5 : Nat) : Int) ∧
      (hang_msgs n st).trace = st.trace ++ List.replicate (n / 5) hanged_msg ∧
      (hang_msgs n st).buf = st.buf
  | 0 => by simp [hang_msgs, h]
  | n + 1 => by
    obtain ⟨hg, ht, hb⟩ := hang_msgs_spec st h n
    have hw : wrap_int (((n % 5 : Nat) : Int) + 1) = ((n % 5 : Nat) : Int) + 1 := by
      unfold wrap_int
      omega
    by_cases h4 : n % 5 = 4
    · have hq : (n + 1) / 5 = n / 5 + 1 := by omega
      have hm : (n + 1) % 5 = 0 := by omega
      have hgt : ((n % 5 : Nat) : Int) + 1 > DRV_NUMBER_SEQUENTIAL_ERRORS := by
        unfold DRV_NUMBER_SEQUENTIAL_ERRORS
        omega
      simp only [hang_msgs, wpa_driver_send_hang_msg, hg, hw, hgt, if_true, State.emit, ht, hb,
        hq, hm, List.replicate_succ', List.append_assoc]
      exact ⟨rfl, rfl, trivial⟩
    · have hq : (n + 1) / 5 = n / 5 := by omega
      have hm : ((((n + 1) % 5 : Nat)) : Int) = ((n % 5 : Nat) : Int) + 1 := by omega
      have hgt : ¬ ((n % 5 : Nat) : Int) + 1 > DRV_NUMBER_SEQUENTIAL_ERRORS := by
        unfold DRV_NUMBER_SEQUENTIAL_ERRORS
        omega
      simp only [hang_msgs, wpa_driver_send_hang_msg, hg, hw, hgt, if_false, ht, hb, hq, hm]
      exact ⟨trivial, trivial, trivial⟩

/-- C13: from a counter of 0, five consecutive calls of `wpa_driver_send_hang_msg` send exactly
one "HANGED" notification and leave the counter at 0; the first four send none and leave the
counter at 4, so the notification is sent by the fifth call. -/
theorem hang_after_five_failures (st : State) (h : st.g_drv_errors = 0) :
    hang_msgs 5 st =
        { g_drv_errors := 0,
          trace := st.trace ++ [Event.wpa_msg Level.MSG_INFO "CTRL-EVENT-DRIVER-STATE HANGED"],
          buf := st.buf } ∧
      hang_msgs 4 st = { g_drv_errors := 4, trace := st.trace, buf := st.buf } := by
  obtain ⟨g5, t5, b5⟩ := hang_msgs_spec st h 5
  obtain ⟨g4, t4, b4⟩ := hang_msgs_spec st h 4
  constructor
  · cases hs : hang_msgs 5 st with
    | mk g t b =>
      rw [hs] at g5 t5 b5
      simp only at g5 t5 b5
      subst g5; subst t5; subst b5
      rfl
  · cases hs : hang_msgs 4 st with
    | mk g t b =>
      rw [hs] at g4 t4 b4
      simp only at g4 t4 b4
      subst g4; subst t4; subst b4
      simp

/-- Five and four calls from the initial state with an empty trace. -/
theorem hang_after_five_failures_witness :
    hang_msgs 5 (st0 2) =
        { g_drv_errors := 0,
          trace := [] ++ [Event.wpa_msg Level.MSG_INFO "CTRL-EVENT-DRIVER-STATE HANGED"],
          buf := [1, 1] } ∧
      hang_msgs 4 (st0 2) = { g_drv_errors := 4, trace := [], buf := [1, 1] } :=
  hang_after_five_failures (st0 2) rfl

/-- C19: from a counter of 0, after `n` calls of `wpa_driver_send_hang_msg` the counter is
`n mod 5` and exactly `n / 5` "HANGED" notifications have been sent; so the counter stays between
0 and 4, its increment does not leave the range of `int`, and call `n + 1` sends a notification
exactly when the counter was 4 before it. -/
theorem hang_counter_invariant (st : State) (h : st.g_drv_errors = 0) (n : Nat) :
    (hang_msgs n st).g_drv_errors = ((n % 5 : Nat) : Int) ∧
      (hang_msgs n st).trace = st.trace ++ List.replicate (n / 5) hanged_msg ∧
      (0 ≤ (hang_msgs n st).g_drv_errors ∧ (hang_msgs n st).g_drv_errors ≤ 4) ∧
      wrap_int ((hang_msgs n st).g_drv_errors + 1) = (hang_msgs n st).g_drv_errors + 1 ∧
      ((hang_msgs n st).g_drv_errors = 4 →
        (hang_msgs (n + 1) st).trace = (hang_msgs n st).trace ++ [hanged_msg]) ∧
      ((hang_msgs n st).g_drv_errors ≠ 4 →
        (hang_msgs (n + 1) st).trace = (hang_msgs n st).trace) := by
  obtain ⟨hg, ht, _⟩ := hang_msgs_spec st h n
  obtain ⟨_, ht1, _⟩ := hang_msgs_spec st h (n + 1)
  refine ⟨hg, ht, ⟨by omega, by omega⟩, ?_, ?_, ?_⟩
  · rw [hg]
    unfold wrap_int
    omega
  · intro h4
    have hq : (n + 1) / 5 = n / 5 + 1 := by omega
    rw [ht1, ht, hq, List.replicate_succ', List.append_assoc]
  · intro h4
    have hq : (n + 1) / 5 = n / 5 := by omega
    rw [ht1, ht, hq]

/-- Twelve calls leave a counter of 2 after two notifications. -/
theorem hang_counter_invariant_witness :
    (hang_msgs 12 (st0 0)).g_drv_errors = 2 ∧
      (hang_msgs 12 (st0 0)).trace = [hanged_msg, hanged_msg] :=
  ⟨(hang_counter_invariant (st0 0) rfl 12).1, (hang_counter_invariant (st0 0) rfl 12).2.1⟩

/-- C18: for `BTCOEXMODE 1` and `BTCOEXMODE 2`, when the control file cannot be opened the
dispatcher returns -1 and the open attempt is its only call: nothing is written, closed or
logged. -/
theorem btcoexmode_open_failure (env : Env) (st : State) (cmd : List Nat) (buf_len : Nat)
    (m : Int) (h0 : 0 ∈ cmd)
    (hp : os_strncasecmp cmd (lit "BTCOEXMODE ") 11 = some 0)
    (hm : atoi (cmd.drop 11) = some m) (h12 : m = 1 ∨ m = 2)
    (hopen : env.open_bt_coex_state = -1) :
    wpa_driver_nl80211_driver_cmd env st cmd buf_len =
      some (-1, { g_drv_errors := st.g_drv_errors,
                  trace := st.trace ++ [Event.open_bt_coex_state],
                  buf := st.buf }) := by
  rw [driver_cmd_btcoexmode env st cmd buf_len h0 hp]
  rcases h12 with h | h <;> subst h <;>
    simp [cmd_btcoexmode, hm, wpa_driver_toggle_btcoex_state, hopen, State.emit,
      BLUETOOTH_COEXISTENCE_MODE_DISABLED, BLUETOOTH_COEXISTENCE_MODE_SENSE]

/-- Mode 2 with a control file that cannot be opened. -/
theorem btcoexmode_open_failure_witness :
    wpa_driver_nl80211_driver_cmd { env_ok with open_bt_coex_state := -1 } (st0 0)
        (lit "BTCOEXMODE 2") 0 =
      some (-1, { g_drv_errors := 0, trace := [] ++ [Event.open_bt_coex_state], buf := [] }) :=
  btcoexmode_open_failure { env_ok with open_bt_coex_state := -1 } (st0 0) (lit "BTCOEXMODE 2") 0
    2 (by decide) (by decide) (by decide) (by decide) (by decide)

/-- A command equal to `STOP` without regard to case runs the `STOP` branch. -/
theorem driver_cmd_stop (env : Env) (st : State) (cmd : List Nat) (buf_len : Nat)
    (h : os_strcasecmp cmd (lit "STOP") = some 0) :
    wpa_driver_nl80211_driver_cmd env st cmd buf_len =
      some (0, ((st.emit (Event.linux_set_iface_flags 0)).emit
        (Event.wpa_msg Level.MSG_INFO (WPA_EVENT_DRIVER_STATE ++ "STOPPED")))) := by
  obtain ⟨k, hk, hl⟩ := os_strcasecmp_zero cmd _ h
  have hkey : k = key "STOP" := Option.some.inj (hl.symm.trans rfl)
  rw [driver_cmd_by_key env st cmd buf_len k hk, hkey]
  simp [dispatch_by_key]

/-- A command equal to `START` without regard to case runs the `START` branch. -/
theorem driver_cmd_start (env : Env) (st : State) (cmd : List Nat) (buf_len : Nat)
    (h : os_strcasecmp cmd (lit "START") = some 0) :
    wpa_driver_nl80211_driver_cmd env st cmd buf_len =
      some (0, ((st.emit (Event.linux_set_iface_flags 1)).emit
        (Event.wpa_msg Level.MSG_INFO (WPA_EVENT_DRIVER_STATE ++ "STARTED")))) := by
  obtain ⟨k, hk, hl⟩ := os_strcasecmp_zero cmd _ h
  have hkey : k = key "START" := Option.some.inj (hl.symm.trans rfl)
  rw [driver_cmd_by_key env st cmd buf_len k hk, hkey]
  simp [dispatch_by_key, key, tolower]

/-- A command equal to `RELOAD` without regard to case runs the `RELOAD` branch. -/
theorem driver_cmd_reload (env : Env) (st : State) (cmd : List Nat) (buf_len : Nat)
    (h : os_strcasecmp cmd (lit "RELOAD") = some 0) :
    wpa_driver_nl80211_driver_cmd env st cmd buf_len =
      some (0, st.emit (Event.wpa_msg Level.MSG_INFO (WPA_EVENT_DRIVER_STATE ++ "HANGED"))) := by
  obtain ⟨k, hk, hl⟩ := os_strcasecmp_zero cmd _ h
  have hkey : k = key "RELOAD" := Option.some.inj (hl.symm.trans rfl)
  rw [driver_cmd_by_key env st cmd buf_len k hk, hkey]
  simp [dispatch_by_key, key, tolower]

/-- A command equal to `RXFILTER-START` without regard to case runs its branch. -/
theorem driver_cmd_rxfilter_start (env : Env) (st : State) (cmd : List Nat) (buf_len : Nat)
    (h : os_strcasecmp cmd (lit "RXFILTER-START") = some 0) :
    wpa_driver_nl80211_driver_cmd env st cmd buf_len =
      some (env.nl80211_set_wowlan_triggers 1,
        st.emit (Event.nl80211_set_wowlan_triggers 1)) := by
  obtain ⟨k, hk, hl⟩ := os_strcasecmp_zero cmd _ h
  have hkey : k = key "RXFILTER-START" := Option.some.inj (hl.symm.trans rfl)
  rw [driver_cmd_by_key env st cmd buf_len k hk, hkey]
  simp [dispatch_by_key, key, tolower]

/-- A command equal to `RXFILTER-STOP` without regard to case runs its branch. -/
theorem driver_cmd_rxfilter_stop (env : Env) (st : State) (cmd : List Nat) (buf_len : Nat)
    (h : os_strcasecmp cmd (lit "RXFILTER-STOP") = some 0) :
    wpa_driver_nl80211_driver_cmd env st cmd buf_len =
      some (env.nl80211_set_wowlan_triggers 0,
        st.emit (Event.nl80211_set_wowlan_triggers 0)) := by
  obtain ⟨k, hk, hl⟩ := os_strcasecmp_zero cmd _ h
  have hkey : k = key "RXFILTER-STOP" := Option.some.inj (hl.symm.trans rfl)
  rw [driver_cmd_by_key env st cmd buf_len k hk, hkey]
  simp [dispatch_by_key, key, tolower]

/-- When the first byte of the text is neither white space, nor a sign, nor a digit, `atoi`
reads 0. -/
theorem atoi_no_digits (c : Nat) (s : List Nat) (h1 : isspace c = false) (h2 : c ≠ 45)
    (h3 : c ≠ 43) (h4 : isdigit c = false) : atoi (c :: s) = some 0 := by
  simp [atoi, atoi_skip, atoi_signed, atoi_digits, h1, h2, h3, h4, LONG_MIN, LONG_MAX, wrap_int]

/-- C14, as stated, fails: the argument `abc` is not a decimal integer, yet `SETBAND abc` returns
0; the argument `1abc` is not one either, yet `BTCOEXMODE 1abc` writes the byte '0' to the
control file and returns the result of the write. -/
theorem malformed_argument_not_refused :
    wpa_driver_nl80211_driver_cmd env_ok (st0 1) (lit "SETBAND abc") 1 = some (0, st0 1) ∧
      wpa_driver_nl80211_driver_cmd env_ok (st0 1) (lit "BTCOEXMODE 1abc") 1 =
        some (1, { g_drv_errors := 0,
                   trace := [Event.open_bt_coex_state, Event.write [48], Event.close,
                     Event.wpa_printf Level.MSG_DEBUG "%s:  set btcoex state to '%c' result = %d"
                       [Arg.str (lit "wpa_driver_toggle_btcoex_state"), Arg.chr 48, Arg.int 1]],
                   buf := [1] }) := by
  decide

/-- C14, amended: for a terminated command with a recognised keyword, a trigger index the parser
refuses (`RXFILTER-ADD `, `RXFILTER-REMOVE `) is answered with the parser's negative code and no
call; an argument that `atoi` reads as an integer outside `[0, 2]` (`SETBAND `) or other than 1
and 2 (`BTCOEXMODE `) is answered with -1, no driver primitive, no notification and the buffer
unchanged (`BTCOEXMODE ` logs one debug line). An argument without leading digits is read as 0
by `atoi`: `SETBAND ` then returns 0. -/
theorem malformed_argument_refused (env : Env) (st : State) (cmd : List Nat) (buf_len : Nat)
    (h0 : 0 ∈ cmd) :
    (os_strncasecmp cmd (lit "RXFILTER-ADD ") 13 = some 0 →
      env.nl80211_parse_wowlan_trigger_nr (cmd.drop 13) < 0 →
      wpa_driver_nl80211_driver_cmd env st cmd buf_len =
        some (env.nl80211_parse_wowlan_trigger_nr (cmd.drop 13), st)) ∧
    (os_strncasecmp cmd (lit "RXFILTER-REMOVE ") 16 = some 0 →
      env.nl80211_parse_wowlan_trigger_nr (cmd.drop 16) < 0 →
      wpa_driver_nl80211_driver_cmd env st cmd buf_len =
        some (env.nl80211_parse_wowlan_trigger_nr (cmd.drop 16), st)) ∧
    (os_strncasecmp cmd (lit "SETBAND ") 8 = some 0 →
      ∀ v, atoi (cmd.drop 8) = some v → (v < 0 ∨ 2 < v) →
      wpa_driver_nl80211_driver_cmd env st cmd buf_len = some (-1, st)) ∧
    (os_strncasecmp cmd (lit "BTCOEXMODE ") 11 = some 0 →
      ∀ m, atoi (cmd.drop 11) = some m → m ≠ 1 → m ≠ 2 →
      wpa_driver_nl80211_driver_cmd env st cmd buf_len =
        some (-1, { g_drv_errors := st.g_drv_errors,
                    trace := st.trace ++
                      [Event.wpa_printf Level.MSG_DEBUG "invalid btcoex mode: %d" [Arg.int m]],
                    buf := st.buf })) ∧
    (os_strncasecmp cmd (lit "SETBAND ") 8 = some 0 →
      ∀ c s, cmd.drop 8 = c :: s → isspace c = false → c ≠ 45 → c ≠ 43 → isdigit c = false →
      wpa_driver_nl80211_driver_cmd env st cmd buf_len = some (0, st)) := by
  refine ⟨?_, ?_, ?_, ?_, ?_⟩
  · intro hp hneg
    rw [driver_cmd_rxfilter_add env st cmd buf_len h0 hp]
    simp [cmd_rxfilter, hneg]
  · intro hp hneg
    rw [driver_cmd_rxfilter_remove env st cmd buf_len h0 hp]
    simp [cmd_rxfilter, hneg]
  · intro hp v hv hr
    rw [driver_cmd_setband env st cmd buf_len h0 hp]
    have hr2 : v < 0 ∨ v > 2 := by omega
    simp [cmd_setband, hv, hr2]
  · intro hp m hm h1 h2
    rw [driver_cmd_btcoexmode env st cmd buf_len h0 hp]
    simp [cmd_btcoexmode, hm, h1, h2, State.emit, BLUETOOTH_COEXISTENCE_MODE_DISABLED,
      BLUETOOTH_COEXISTENCE_MODE_SENSE]
  · intro hp c s hcs h1 h2 h3 h4
    rw [driver_cmd_setband env st cmd buf_len h0 hp]
    simp [cmd_setband, hcs, atoi_no_digits c s h1 h2 h3 h4]

/-- A refused trigger index, band 7, mode 0 and the band `x`. -/
theorem malformed_argument_refused_witness :
    wpa_driver_nl80211_driver_cmd { env_ok with nl80211_parse_wowlan_trigger_nr := fun _ => -1 }
        (st0 1) (lit "RXFILTER-REMOVE zz") 1 = some (-1, st0 1) ∧
      wpa_driver_nl80211_driver_cmd env_ok (st0 1) (lit "SETBAND 7") 1 = some (-1, st0 1) ∧
      (wpa_driver_nl80211_driver_cmd env_ok (st0 1) (lit "BTCOEXMODE 0") 1).map Prod.fst =
        some (-1) ∧
      wpa_driver_nl80211_driver_cmd env_ok (st0 1) (lit "SETBAND x") 1 = some (0, st0 1) :=
  ⟨(malformed_argument_refused { env_ok with nl80211_parse_wowlan_trigger_nr := fun _ => -1 }
      (st0 1) (lit "RXFILTER-REMOVE zz") 1 (by decide)).2.1 (by decide) (by decide),
   (malformed_argument_refused env_ok (st0 1) (lit "SETBAND 7") 1 (by decide)).2.2.1
      (by decide) 7 (by decide) (by decide),
   by rw [(malformed_argument_refused env_ok (st0 1) (lit "BTCOEXMODE 0") 1
      (by decide)).2.2.2.1 (by decide) 0 (by decide) (by decide) (by decide)]; rfl,
   (malformed_argument_refused env_ok (st0 1) (lit "SETBAND x") 1 (by decide)).2.2.2.2
      (by decide) 120 [0] (by decide) (by decide) (by decide) (by decide) (by decide)⟩

/-- C15, as stated, fails: with an interface toggle that reports -1, `STOP` and `START` still
return 0. -/
theorem interface_toggle_failure_not_returned :
    ({ env_ok with linux_set_iface_flags := fun _ => -1 } : Env).linux_set_iface_flags 0 = -1 ∧
      (wpa_driver_nl80211_driver_cmd { env_ok with linux_set_iface_flags := fun _ => -1 }
        (st0 0) (lit "STOP") 0).map Prod.fst = some 0 ∧
      (wpa_driver_nl80211_driver_cmd { env_ok with linux_set_iface_flags := fun _ => -1 }
        (st0 0) (lit "START") 0).map Prod.fst = some 0 := by
  decide

/-- C15, amended: a negative status of the hardware-address query (`MACADDR`), of the write to
the opened control file (`BTCOEXMODE ` with 1 or 2), of the trigger toggle (`RXFILTER-ADD `,
`RXFILTER-REMOVE `) and of the bulk trigger call (`RXFILTER-START`, `RXFILTER-STOP`) is what the
dispatcher returns, so it returns a negative status; for `STOP` and `START` the status of the
interface toggle is dropped and 0 is returned. -/
theorem primitive_failure_returned (env : Env) (st : State) (cmd : List Nat) (buf_len : Nat) :
    (os_strcasecmp cmd (lit "MACADDR") = some 0 → env.linux_get_ifhwaddr.1 < 0 →
      ∃ st1, wpa_driver_nl80211_driver_cmd env st cmd buf_len =
        some (env.linux_get_ifhwaddr.1, st1)) ∧
    (0 ∈ cmd → os_strncasecmp cmd (lit "BTCOEXMODE ") 11 = some 0 →
      atoi (cmd.drop 11) = some 1 → env.open_bt_coex_state ≠ -1 → env.write [48] < 0 →
      ∃ st1, wpa_driver_nl80211_driver_cmd env st cmd buf_len = some (env.write [48], st1)) ∧
    (0 ∈ cmd → os_strncasecmp cmd (lit "BTCOEXMODE ") 11 = some 0 →
      atoi (cmd.drop 11) = some 2 → env.open_bt_coex_state ≠ -1 → env.write [49] < 0 →
      ∃ st1, wpa_driver_nl80211_driver_cmd env st cmd buf_len = some (env.write [49], st1)) ∧
    (0 ∈ cmd → os_strncasecmp cmd (lit "RXFILTER-ADD ") 13 = some 0 →
      0 ≤ env.nl80211_parse_wowlan_trigger_nr (cmd.drop 13) →
      env.nl80211_toggle_wowlan_trigger (env.nl80211_parse_wowlan_trigger_nr (cmd.drop 13)) 1 < 0 →
      ∃ st1, wpa_driver_nl80211_driver_cmd env st cmd buf_len =
        some (env.nl80211_toggle_wowlan_trigger
          (env.nl80211_parse_wowlan_trigger_nr (cmd.drop 13)) 1, st1)) ∧
    (0 ∈ cmd → os_strncasecmp cmd (lit "RXFILTER-REMOVE ") 16 = some 0 →
      0 ≤ env.nl80211_parse_wowlan_trigger_nr (cmd.drop 16) →
      env.nl80211_toggle_wowlan_trigger (env.nl80211_parse_wowlan_trigger_nr (cmd.drop 16)) 0 < 0 →
      ∃ st1, wpa_driver_nl80211_driver_cmd env st cmd buf_len =
        some (env.nl80211_toggle_wowlan_trigger
          (env.nl80211_parse_wowlan_trigger_nr (cmd.drop 16)) 0, st1)) ∧
    (os_strcasecmp cmd (lit "RXFILTER-START") = some 0 → env.nl80211_set_wowlan_triggers 1 < 0 →
      ∃ st1, wpa_driver_nl80211_driver_cmd env st cmd buf_len =
        some (env.nl80211_set_wowlan_triggers 1, st1)) ∧
    (os_strcasecmp cmd (lit "RXFILTER-STOP") = some 0 → env.nl80211_set_wowlan_triggers 0 < 0 →
      ∃ st1, wpa_driver_nl80211_driver_cmd env st cmd buf_len =
        some (env.nl80211_set_wowlan_triggers 0, st1)) ∧
    (os_strcasecmp cmd (lit "STOP") = some 0 ∨ os_strcasecmp cmd (lit "START") = some 0 →
      ∃ st1, wpa_driver_nl80211_driver_cmd env st cmd buf_len = some (0, st1)) := by
  refine ⟨?_, ?_, ?_, ?_, ?_, ?_, ?_, ?_⟩
  · intro hc hneg
    rw [driver_cmd_macaddr env st cmd buf_len hc]
    have hne : env.linux_get_ifhwaddr.1 ≠ 0 := by omega
    simp [cmd_macaddr, hne]
  · intro h0 hp hm hopen _
    rw [driver_cmd_btcoexmode env st cmd buf_len h0 hp]
    simp [cmd_btcoexmode, hm, wpa_driver_toggle_btcoex_state, hopen,
      BLUETOOTH_COEXISTENCE_MODE_DISABLED]
  · intro h0 hp hm hopen _
    rw [driver_cmd_btcoexmode env st cmd buf_len h0 hp]
    simp [cmd_btcoexmode, hm, wpa_driver_toggle_btcoex_state, hopen,
      BLUETOOTH_COEXISTENCE_MODE_DISABLED, BLUETOOTH_COEXISTENCE_MODE_SENSE]
  · intro h0 hp hpos _
    rw [driver_cmd_rxfilter_add env st cmd buf_len h0 hp]
    have hnot : ¬ env.nl80211_parse_wowlan_trigger_nr (cmd.drop 13) < 0 := by omega
    simp [cmd_rxfilter, hnot]
  · intro h0 hp hpos _
    rw [driver_cmd_rxfilter_remove env st cmd buf_len h0 hp]
    have hnot : ¬ env.nl80211_parse_wowlan_trigger_nr (cmd.drop 16) < 0 := by omega
    simp [cmd_rxfilter, hnot]
  · intro hc _
    exact ⟨_, driver_cmd_rxfilter_start env st cmd buf_len hc⟩
  · intro hc _
    exact ⟨_, driver_cmd_rxfilter_stop env st cmd buf_len hc⟩
  · intro hc
    rcases hc with hc | hc
    · exact ⟨_, driver_cmd_stop env st cmd buf_len hc⟩
    · exact ⟨_, driver_cmd_start env st cmd buf_len hc⟩

/-- A failing address query (-19) and a failing trigger toggle (-5) are returned. -/
theorem primitive_failure_returned_witness :
    (∃ st1, wpa_driver_nl80211_driver_cmd
        { env_ok with linux_get_ifhwaddr := (-19, [0, 0, 0, 0, 0, 0]) } (st0 0)
        (lit "MACADDR") 0 = some (-19, st1)) ∧
      (∃ st1, wpa_driver_nl80211_driver_cmd
        { env_ok with nl80211_toggle_wowlan_trigger := fun _ _ => -5 } (st0 0)
        (lit "RXFILTER-ADD 2") 0 = some (-5, st1)) ∧
      (∃ st1, wpa_driver_nl80211_driver_cmd
        { env_ok with write := fun _ => -1 } (st0 0)
        (lit "BTCOEXMODE 1") 0 = some (-1, st1)) :=
  ⟨(primitive_failure_returned { env_ok with linux_get_ifhwaddr := (-19, [0, 0, 0, 0, 0, 0]) }
      (st0 0) (lit "MACADDR") 0).1 (by decide) (by decide),
   (primitive_failure_returned { env_ok with nl80211_toggle_wowlan_trigger := fun _ _ => -5 }
      (st0 0) (lit "RXFILTER-ADD 2") 0).2.2.2.1 (by decide) (by decide) (by decide) (by decide),
   (primitive_failure_returned { env_ok with write := fun _ => -1 }
      (st0 0) (lit "BTCOEXMODE 1") 0).2.1 (by decide) (by decide) (by decide) (by decide)
      (by decide)⟩

/-- The dispatcher is the first match over its table of rules. -/
theorem driver_cmd_eq_first_match (env : Env) (st : State) (cmd : List Nat) (buf_len : Nat) :
    wpa_driver_nl80211_driver_cmd env st cmd buf_len =
      first_match (rule_table env st cmd buf_len) (unsupported st cmd) := rfl

/-- The lowered text depends on the lowered bytes only. -/
theorem lowerStr_congr : ∀ (s t : List Nat), s.map tolower = t.map tolower →
    lowerStr s = lowerStr t
  | [], [], _ => rfl
  | [], _ :: _, h => by simp at h
  | _ :: _, [], h => by simp at h
  | a :: s, b :: t, h => by
    simp only [List.map_cons, List.cons.injEq] at h
    have ih := lowerStr_congr s t h.2
    by_cases ha : a = 0
    · have hb : b = 0 := by
        have := h.1
        rw [ha] at this
        exact (tolower_eq_zero b).mp this.symm
      simp [lowerStr, ha, hb]
    · have hb : b ≠ 0 := by
        intro hb
        have := h.1
        rw [hb] at this
        exact ha ((tolower_eq_zero a).mp this)
      simp [lowerStr, ha, hb, ih, h.1]

/-- C16: let `cmd` be a terminated command and `cmd1` a command that differs from it only by the
case of letters inside its keyword (equal once lowered over the keyword, identical after it).
Then the dispatcher, given the same primitive results, returns the same status and leaves the
same state for both: same calls with the same arguments, same output buffer. -/
theorem keyword_case_insensitive (env : Env) (st : State) (cmd cmd1 : List Nat) (buf_len : Nat)
    (k : List Nat) (hk : lowerStr cmd = some k)
    (hkw : (cmd1.take (keyword_length k)).map tolower =
      (cmd.take (keyword_length k)).map tolower)
    (hrest : cmd1.drop (keyword_length k) = cmd.drop (keyword_length k)) :
    wpa_driver_nl80211_driver_cmd env st cmd1 buf_len =
      wpa_driver_nl80211_driver_cmd env st cmd buf_len := by
  have hmap : cmd1.map tolower = cmd.map tolower := by
    rw [← List.take_append_drop (keyword_length k) cmd1,
      ← List.take_append_drop (keyword_length k) cmd, List.map_append, List.map_append, hkw,
      hrest]
  have hk1 : lowerStr cmd1 = some k := by rw [lowerStr_congr cmd1 cmd hmap, hk]
  rw [driver_cmd_by_key env st cmd buf_len k hk, driver_cmd_by_key env st cmd1 buf_len k hk1]
  unfold dispatch_by_key
  by_cases h1 : k = key "STOP"
  · simp [h1]
  by_cases h2 : k = key "START"
  · simp [h2, key, tolower]
  by_cases h3 : k = key "RELOAD"
  · simp [h3, key, tolower]
  by_cases h4 : k.take 11 = key "BTCOEXMODE "
  · simp only [keyword_length, h1, h2, h3, h4, if_true, if_false] at hrest
    simp [h1, h2, h3, h4, cmd_btcoexmode, hrest]
  by_cases h5 : k = key "MACADDR"
  · simp [h5, key, tolower]
  by_cases h6 : k.take 13 = key "RXFILTER-ADD "
  · simp only [keyword_length, h1, h2, h3, h4, h5, h6, if_true, if_false] at hrest
    simp [h1, h2, h3, h4, h5, h6, cmd_rxfilter, hrest]
  by_cases h7 : k.take 16 = key "RXFILTER-REMOVE "
  · simp only [keyword_length, h1, h2, h3, h4, h5, h6, h7, if_true, if_false] at hrest
    simp [h1, h2, h3, h4, h5, h6, h7, cmd_rxfilter, hrest]
  by_cases h8 : k = key "RXFILTER-START"
  · simp [h8, key, tolower]
  by_cases h9 : k = key "RXFILTER-STOP"
  · simp [h9, key, tolower]
  by_cases h10 : k.take 9 = key "DROPBCAST"
  · simp only [keyword_length, h1, h2, h3, h4, h5, h6, h7, h8, h9, h10, if_true, if_false]
      at hrest
    have h10d : cmd1.drop 10 = cmd.drop 10 := by
      have := congrArg (List.drop 1) hrest
      simpa [List.drop_drop] using this
    simp [h1, h2, h3, h4, h5, h6, h7, h8, h9, h10, cmd_dropbcast, h10d]
  by_cases h11 : k.take 8 = key "SETBAND "
  · simp only [keyword_length, h1, h2, h3, h4, h5, h6, h7, h8, h9, h10, h11, if_true, if_false]
      at hrest
    simp [h1, h2, h3, h4, h5, h6, h7, h8, h9, h10, h11, cmd_setband, hrest]
  · simp only [keyword_length, h1, h2, h3, h4, h5, h6, h7, h8, h9, h10, h11, if_false,
      List.drop_zero] at hrest
    rw [hrest]

/-- The commands `btCoexMode 2` and `BTCOEXMODE 2`, `Stop` and `STOP`. -/
theorem keyword_case_insensitive_witness :
    wpa_driver_nl80211_driver_cmd env_ok (st0 0) (lit "btCoexMode 2") 0 =
        wpa_driver_nl80211_driver_cmd env_ok (st0 0) (lit "BTCOEXMODE 2") 0 ∧
      wpa_driver_nl80211_driver_cmd env_ok (st0 0) (lit "Stop") 0 =
        wpa_driver_nl80211_driver_cmd env_ok (st0 0) (lit "STOP") 0 :=
  ⟨keyword_case_insensitive env_ok (st0 0) (lit "BTCOEXMODE 2") (lit "btCoexMode 2") 0
      (key "BTCOEXMODE 2") (by decide) (by decide) (by decide),
   keyword_case_insensitive env_ok (st0 0) (lit "STOP") (lit "Stop") 0
      (key "STOP") (by decide) (by decide) (by decide)⟩

/-- At most one of the eleven match conditions holds for a lowered text. -/
theorem rule_conds_count (k : List Nat) : (rule_conds k).count true ≤ 1 := by
  by_cases h1 : k = key "STOP"
  · subst h1; decide
  by_cases h2 : k = key "START"
  · subst h2; decide
  by_cases h3 : k = key "RELOAD"
  · subst h3; decide
  by_cases h4 : k.take 11 = key "BTCOEXMODE "
  · rw [← List.take_append_drop 11 k, h4]
    simp [rule_conds, key, tolower]
  by_cases h5 : k = key "MACADDR"
  · subst h5; decide
  by_cases h6 : k.take 13 = key "RXFILTER-ADD "
  · rw [← List.take_append_drop 13 k, h6]
    simp [rule_conds, key, tolower]
  by_cases h7 : k.take 16 = key "RXFILTER-REMOVE "
  · rw [← List.take_append_drop 16 k, h7]
    simp [rule_conds, key, tolower]
  by_cases h8 : k = key "RXFILTER-START"
  · subst h8; decide
  by_cases h9 : k = key "RXFILTER-STOP"
  · subst h9; decide
  by_cases h10 : k.take 9 = key "DROPBCAST"
  · rw [← List.take_append_drop 9 k, h10]
    simp [rule_conds, key, tolower]
  by_cases h11 : k.take 8 = key "SETBAND "
  · rw [← List.take_append_drop 8 k, h11]
    simp [rule_conds, key, tolower]
  · simp [rule_conds, h1, h2, h3, h4, h5, h6, h7, h8, h9, h10, h11]

theorem decide_strcasecmp (s t ks kt : List Nat) (hs : lowerStr s = some ks)
    (ht : lowerStr t = some kt) :
    decide (os_strcasecmp s t = some 0) = decide (ks = kt) := by
  obtain ⟨r, hr, hiff⟩ := os_strcasecmp_spec s t ks kt hs ht
  rw [hr]
  simp [hiff]

theorem decide_strncasecmp (n : Nat) (s t ks kt : List Nat) (hs : lowerStr s = some ks)
    (ht : lowerStr t = some kt) :
    decide (os_strncasecmp s t n = some 0) = decide (ks.take n = kt.take n) := by
  obtain ⟨r, hr, hiff⟩ := os_strncasecmp_spec n s t ks kt hs ht
  rw [hr]
  simp [hiff]

/-- The tests of the `if` chain that are 0 are the match conditions on the lowered text. -/
theorem rule_tests_conds (cmd k : List Nat) (hk : lowerStr cmd = some k) :
    (rule_tests cmd).map (fun t => decide (t = some 0)) = rule_conds k := by
  simp only [rule_tests, rule_conds, List.map_cons, List.map_nil]
  rw [decide_strcasecmp cmd (lit "STOP") k (key "STOP") hk rfl,
    decide_strcasecmp cmd (lit "START") k (key "START") hk rfl,
    decide_strcasecmp cmd (lit "RELOAD") k (key "RELOAD") hk rfl,
    decide_strncasecmp 11 cmd (lit "BTCOEXMODE ") k (key "BTCOEXMODE ") hk rfl,
    decide_strcasecmp cmd (lit "MACADDR") k (key "MACADDR") hk rfl,
    decide_strncasecmp 13 cmd (lit "RXFILTER-ADD ") k (key "RXFILTER-ADD ") hk rfl,
    decide_strncasecmp 16 cmd (lit "RXFILTER-REMOVE ") k (key "RXFILTER-REMOVE ") hk rfl,
    decide_strcasecmp cmd (lit "RXFILTER-START") k (key "RXFILTER-START") hk rfl,
    decide_strcasecmp cmd (lit "RXFILTER-STOP") k (key "RXFILTER-STOP") hk rfl,
    decide_strncasecmp 9 cmd (lit "DROPBCAST") k (key "DROPBCAST") hk rfl,
    decide_strncasecmp 8 cmd (lit "SETBAND ") k (key "SETBAND ") hk rfl]
  rfl

theorem count_zero_tests : ∀ (l : List (Option Int)),
    l.count (some 0) = (l.map (fun t => decide (t = some 0))).count true
  | [] => rfl
  | t :: l => by
    rw [List.map_cons, List.count_cons, List.count_cons, count_zero_tests l]
    by_cases h : t = some 0
    · simp [h]
    · simp [h]

/-- When every test returns, every rule whose test is 0 has the branch `res`, and the default
is `res` when no test is 0, the first match is `res`, whatever the order of the rules. -/
theorem first_match_eq (res dflt : Option (Int × State)) :
    ∀ (l : List (Option Int × Option (Int × State))),
    (∀ r ∈ l, ∃ c, r.1 = some c) → (∀ r ∈ l, r.1 = some 0 → r.2 = res) →
    ((∀ r ∈ l, r.1 ≠ some 0) → dflt = res) → first_match l dflt = res
  | [], _, _, hd => by
    rw [first_match]
    exact hd (fun r hr => by simp at hr)
  | (t, a) :: rest, hsome, hmatch, hd => by
    obtain ⟨c, hc⟩ := hsome (t, a) (List.mem_cons_self _ _)
    simp only at hc
    subst hc
    rw [first_match, Option.some_bind]
    by_cases h0 : c = 0
    · rw [if_pos h0]
      exact hmatch (some c, a) (List.mem_cons_self _ _) (by rw [h0])
    · rw [if_neg h0]
      apply first_match_eq res dflt rest
      · exact fun r hr => hsome r (List.mem_cons_of_mem _ hr)
      · exact fun r hr => hmatch r (List.mem_cons_of_mem _ hr)
      · intro hall
        apply hd
        intro r hr
        rcases List.mem_cons.mp hr with h | h
        · rw [h]
          simp [h0]
        · exact hall r h

/-- A terminated command that no rule matches takes the last `else`. -/
theorem driver_cmd_unsupported (env : Env) (st : State) (cmd : List Nat) (buf_len : Nat)
    (h0 : 0 ∈ cmd) (hno : ∀ r ∈ rule_tests cmd, r ≠ some 0) :
    wpa_driver_nl80211_driver_cmd env st cmd buf_len = unsupported st cmd := by
  obtain ⟨k, hk⟩ := lowerStr_of_mem cmd h0
  have hc := rule_tests_conds cmd k hk
  have hall : ∀ b ∈ rule_conds k, b = false := by
    intro b hb
    rw [← hc] at hb
    obtain ⟨t, ht, rfl⟩ := List.mem_map.mp hb
    simpa using hno t ht
  simp only [rule_conds, List.mem_cons, List.mem_singleton, List.not_mem_nil, or_false,
    forall_eq_or_imp, forall_eq, decide_eq_false_iff_not] at hall
  obtain ⟨h1, h2, h3, h4, h5, h6, h7, h8, h9, h10, h11⟩ := hall
  rw [driver_cmd_by_key env st cmd buf_len k hk]
  unfold dispatch_by_key
  rw [if_neg h1, if_neg h2, if_neg h3, if_neg h4, if_neg h5, if_neg h6, if_neg h7, if_neg h8,
    if_neg h9, if_neg h10, if_neg h11]
  rfl

/-- On a terminated command every test of the table returns. -/
theorem rule_table_tests_return (env : Env) (st : State) (cmd : List Nat) (buf_len : Nat)
    (k : List Nat) (hk : lowerStr cmd = some k) :
    ∀ r ∈ rule_table env st cmd buf_len, ∃ c, r.1 = some c := by
  have e : ∀ (t : String) (kt : List Nat), lowerStr (lit t) = some kt →
      ∃ c, os_strcasecmp cmd (lit t) = some c := fun t kt ht =>
    (os_strcasecmp_spec cmd (lit t) k kt hk ht).imp (fun _ h => h.1)
  have p : ∀ (n : Nat) (t : String) (kt : List Nat), lowerStr (lit t) = some kt →
      ∃ c, os_strncasecmp cmd (lit t) n = some c := fun n t kt ht =>
    (os_strncasecmp_spec n cmd (lit t) k kt hk ht).imp (fun _ h => h.1)
  intro r hr
  simp only [rule_table, List.mem_cons, List.mem_singleton, List.not_mem_nil, or_false] at hr
  rcases hr with rfl | rfl | rfl | rfl | rfl | rfl | rfl | rfl | rfl | rfl | rfl
  · exact e "STOP" (key "STOP") rfl
  · exact e "START" (key "START") rfl
  · exact e "RELOAD" (key "RELOAD") rfl
  · exact p 11 "BTCOEXMODE " (key "BTCOEXMODE ") rfl
  · exact e "MACADDR" (key "MACADDR") rfl
  · exact p 13 "RXFILTER-ADD " (key "RXFILTER-ADD ") rfl
  · exact p 16 "RXFILTER-REMOVE " (key "RXFILTER-REMOVE ") rfl
  · exact e "RXFILTER-START" (key "RXFILTER-START") rfl
  · exact e "RXFILTER-STOP" (key "RXFILTER-STOP") rfl
  · exact p 9 "DROPBCAST" (key "DROPBCAST") rfl
  · exact p 8 "SETBAND " (key "SETBAND ") rfl

/-- On a terminated command every rule whose test is 0 guards the branch the dispatcher runs. -/
theorem rule_table_match (env : Env) (st : State) (cmd : List Nat) (buf_len : Nat)
    (h0 : 0 ∈ cmd) :
    ∀ r ∈ rule_table env st cmd buf_len, r.1 = some 0 →
      r.2 = wpa_driver_nl80211_driver_cmd env st cmd buf_len := by
  intro r hr
  simp only [rule_table, List.mem_cons, List.mem_singleton, List.not_mem_nil, or_false] at hr
  rcases hr with rfl | rfl | rfl | rfl | rfl | rfl | rfl | rfl | rfl | rfl | rfl
  · exact fun h => (driver_cmd_stop env st cmd buf_len h).symm
  · exact fun h => (driver_cmd_start env st cmd buf_len h).symm
  · exact fun h => (driver_cmd_reload env st cmd buf_len h).symm
  · exact fun h => (driver_cmd_btcoexmode env st cmd buf_len h0 h).symm
  · exact fun h => (driver_cmd_macaddr env st cmd buf_len h).symm
  · exact fun h => (driver_cmd_rxfilter_add env st cmd buf_len h0 h).symm
  · exact fun h => (driver_cmd_rxfilter_remove env st cmd buf_len h0 h).symm
  · exact fun h => (driver_cmd_rxfilter_start env st cmd buf_len h).symm
  · exact fun h => (driver_cmd_rxfilter_stop env st cmd buf_len h).symm
  · exact fun h => (driver_cmd_dropbcast env st cmd buf_len h0 h).symm
  · exact fun h => (driver_cmd_setband env st cmd buf_len h0 h).symm

/-- C17: on a terminated command at most one of the eleven tests of the `if` chain is 0, and
the first match over the eleven rules taken in any order gives the result of the dispatcher. -/
theorem keyword_rules_disjoint (env : Env) (st : State) (cmd : List Nat) (buf_len : Nat)
    (h0 : 0 ∈ cmd) :
    (rule_table env st cmd buf_len).map Prod.fst = rule_tests cmd ∧
      (rule_tests cmd).count (some 0) ≤ 1 ∧
      ∀ l, List.Perm l (rule_table env st cmd buf_len) →
        first_match l (unsupported st cmd) =
          wpa_driver_nl80211_driver_cmd env st cmd buf_len := by
  obtain ⟨k, hk⟩ := lowerStr_of_mem cmd h0
  refine ⟨rfl, ?_, ?_⟩
  · rw [count_zero_tests, rule_tests_conds cmd k hk]
    exact rule_conds_count k
  · intro l hl
    apply first_match_eq
    · exact fun r hr => rule_table_tests_return env st cmd buf_len k hk r (hl.mem_iff.mp hr)
    · exact fun r hr => rule_table_match env st cmd buf_len h0 r (hl.mem_iff.mp hr)
    · intro hall
      refine (driver_cmd_unsupported env st cmd buf_len h0 ?_).symm
      intro t ht
      have ht1 : t ∈ (rule_table env st cmd buf_len).map Prod.fst := ht
      obtain ⟨r, hr, rfl⟩ := List.mem_map.mp ht1
      exact hall r (hl.mem_iff.mpr hr)

/-- The rules taken in reverse order on `RXFILTER-STOP`. -/
theorem keyword_rules_disjoint_witness :
    (rule_tests (lit "RXFILTER-STOP")).count (some 0) ≤ 1 ∧
      first_match (rule_table env_ok (st0 0) (lit "RXFILTER-STOP") 0).reverse
          (unsupported (st0 0) (lit "RXFILTER-STOP")) =
        wpa_driver_nl80211_driver_cmd env_ok (st0 0) (lit "RXFILTER-STOP") 0 :=
  ⟨(keyword_rules_disjoint env_ok (st0 0) (lit "RXFILTER-STOP") 0 (by decide)).2.1,
   (keyword_rules_disjoint env_ok (st0 0) (lit "RXFILTER-STOP") 0 (by decide)).2.2 _
      (List.reverse_perm _)⟩

/-- The results the `DROPBCAST` branch can give. -/
theorem cmd_dropbcast_cases (env : Env) (st : State) (cmd : List Nat) (buf_len : Nat)
    (res : Int × State) (h : cmd_dropbcast env st cmd buf_len = some res) :
    res = (env.nl80211_toggle_dropbcast 1, st.emit (Event.nl80211_toggle_dropbcast 1)) ∨
    res = (env.nl80211_toggle_dropbcast 0, st.emit (Event.nl80211_toggle_dropbcast 0)) ∨
    res = ((env.nl80211_dropbcast_get st.buf buf_len).1,
      { st.emit (Event.nl80211_dropbcast_get buf_len) with
        buf := (env.nl80211_dropbcast_get st.buf buf_len).2 }) ∨
    res = (-1, st.emit (Event.wpa_printf Level.MSG_ERROR "Invalid parameter for DROPBCAST: %s"
      [Arg.str (cmd.drop 10)])) := by
  unfold cmd_dropbcast at h
  simp only [Option.bind_eq_some] at h
  obtain ⟨e1, _, en, _, h⟩ := h
  by_cases hen : en = true
  · rw [if_pos hen, Option.some.injEq] at h
    exact Or.inl h.symm
  rw [if_neg hen] at h
  simp only [Option.bind_eq_some] at h
  obtain ⟨d1, _, dis, _, h⟩ := h
  by_cases hdis : dis = true
  · rw [if_pos hdis, Option.some.injEq] at h
    exact Or.inr (Or.inl h.symm)
  rw [if_neg hdis] at h
  simp only [Option.bind_eq_some] at h
  obtain ⟨g1, _, get, _, h⟩ := h
  by_cases hget : get = true
  · rw [if_pos hget, Option.some.injEq] at h
    exact Or.inr (Or.inr (Or.inl h.symm))
  · rw [if_neg hget, Option.some.injEq] at h
    exact Or.inr (Or.inr (Or.inr h.symm))

/-- A result of the first match is the branch of a rule whose test is 0, or the default. -/
theorem first_match_some (dflt : Option (Int × State)) (res : Int × State) :
    ∀ (l : List (Option Int × Option (Int × State))), first_match l dflt = some res →
    (∃ r ∈ l, r.1 = some 0 ∧ r.2 = some res) ∨ dflt = some res
  | [], h => Or.inr h
  | (t, a) :: rest, h => by
    rw [first_match] at h
    cases t with
    | none => simp at h
    | some c =>
      rw [Option.some_bind] at h
      by_cases h0 : c = 0
      · rw [if_pos h0] at h
        exact Or.inl ⟨(some c, a), List.mem_cons_self _ _, by rw [h0], h⟩
      · rw [if_neg h0] at h
        rcases first_match_some dflt res rest h with ⟨r, hr, h1, h2⟩ | hd
        · exact Or.inl ⟨r, List.mem_cons_of_mem _ hr, h1, h2⟩
        · exact Or.inr hd

theorem quiet_btcoex_state (env : Env) (st : State) (state : Nat) :
    quiet st (wpa_driver_toggle_btcoex_state env st state).2 := by
  unfold wpa_driver_toggle_btcoex_state
  by_cases ho : env.open_bt_coex_state = -1
  · simp only [ho, if_true]
    exact ⟨rfl, [Event.open_bt_coex_state], rfl, by simp [hanged_msg]⟩
  · simp only [ho, if_false]
    exact ⟨rfl, _, by simp only [State.emit, List.append_assoc]; rfl, by simp [hanged_msg]⟩

theorem quiet_btcoexmode (env : Env) (st : State) (cmd : List Nat) (r : Int) (st1 : State)
    (h : cmd_btcoexmode env st cmd = some (r, st1)) : quiet st st1 := by
  unfold cmd_btcoexmode at h
  simp only [Option.map_eq_some'] at h
  obtain ⟨mode, _, h⟩ := h
  by_cases h1 : mode = BLUETOOTH_COEXISTENCE_MODE_DISABLED
  · rw [if_pos h1] at h
    have := quiet_btcoex_state env st 48
    rw [h] at this
    exact this
  rw [if_neg h1] at h
  by_cases h2 : mode = BLUETOOTH_COEXISTENCE_MODE_SENSE
  · rw [if_pos h2] at h
    have := quiet_btcoex_state env st 49
    rw [h] at this
    exact this
  · rw [if_neg h2, Prod.mk.injEq] at h
    rw [← h.2]
    exact ⟨rfl, _, rfl, by simp [hanged_msg]⟩

theorem quiet_macaddr (env : Env) (st : State) (buf_len : Nat) :
    quiet st (cmd_macaddr env st buf_len).2 := by
  unfold cmd_macaddr
  by_cases h : env.linux_get_ifhwaddr.1 = 0
  · simp only [h, if_true]
    exact ⟨rfl, [Event.linux_get_ifhwaddr], rfl, by simp [hanged_msg]⟩
  · simp only [h, if_false]
    exact ⟨rfl, [Event.linux_get_ifhwaddr], rfl, by simp [hanged_msg]⟩

theorem quiet_rxfilter (env : Env) (st : State) (cmd : List Nat) (off : Nat) (enabled : Int) :
    quiet st (cmd_rxfilter env st cmd off enabled).2 := by
  unfold cmd_rxfilter
  by_cases h : env.nl80211_parse_wowlan_trigger_nr (cmd.drop off) < 0
  · simp only [h, if_true]
    exact ⟨rfl, [], by simp, by simp⟩
  · simp only [h, if_false]
    exact ⟨rfl, _, rfl, by simp [hanged_msg]⟩

theorem quiet_dropbcast (env : Env) (st : State) (cmd : List Nat) (buf_len : Nat) (r : Int)
    (st1 : State) (h : cmd_dropbcast env st cmd buf_len = some (r, st1)) : quiet st st1 := by
  rcases cmd_dropbcast_cases env st cmd buf_len (r, st1) h with h | h | h | h <;>
    rw [Prod.mk.injEq] at h <;> rw [h.2] <;>
    exact ⟨rfl, _, rfl, by simp [hanged_msg]⟩

theorem quiet_setband (st : State) (cmd : List Nat) (r : Int) (st1 : State)
    (h : cmd_setband st cmd = some (r, st1)) : quiet st st1 := by
  unfold cmd_setband at h
  simp only [Option.map_eq_some'] at h
  obtain ⟨v, _, h⟩ := h
  have hst : st1 = st := by
    by_cases hv : v < 0 ∨ v > 2
    · rw [if_pos hv, Prod.mk.injEq] at h
      exact h.2.symm
    · rw [if_neg hv, Prod.mk.injEq] at h
      exact h.2.symm
  rw [hst]
  exact ⟨rfl, [], by simp, by simp⟩

/-- A result of the dispatcher on a command that is not `RELOAD` shows no escalation. -/
theorem quiet_driver_cmd (env : Env) (st : State) (cmd : List Nat) (buf_len : Nat) (r : Int)
    (st1 : State) (h : wpa_driver_nl80211_driver_cmd env st cmd buf_len = some (r, st1))
    (hR : os_strcasecmp cmd (lit "RELOAD") ≠ some 0) : quiet st st1 := by
  rw [driver_cmd_eq_first_match] at h
  rcases first_match_some _ _ _ h with ⟨r0, hr0, ht, ha⟩ | hd
  · simp only [rule_table, List.mem_cons, List.mem_singleton, List.not_mem_nil, or_false] at hr0
    rcases hr0 with rfl | rfl | rfl | rfl | rfl | rfl | rfl | rfl | rfl | rfl | rfl
    · simp only [Option.some.injEq, Prod.mk.injEq] at ha
      rw [← ha.2]
      exact ⟨rfl, _, by simp only [State.emit, List.append_assoc]; rfl, by decide⟩
    · simp only [Option.some.injEq, Prod.mk.injEq] at ha
      rw [← ha.2]
      exact ⟨rfl, _, by simp only [State.emit, List.append_assoc]; rfl, by decide⟩
    · exact absurd ht hR
    · exact quiet_btcoexmode env st cmd r st1 ha
    · simp only [Option.some.injEq] at ha
      have := quiet_macaddr env st buf_len
      rw [ha] at this
      exact this
    · simp only [Option.some.injEq] at ha
      have := quiet_rxfilter env st cmd 13 1
      rw [ha] at this
      exact this
    · simp only [Option.some.injEq] at ha
      have := quiet_rxfilter env st cmd 16 0
      rw [ha] at this
      exact this
    · simp only [Option.some.injEq, Prod.mk.injEq] at ha
      rw [← ha.2]
      exact ⟨rfl, _, rfl, by simp [hanged_msg]⟩
    · simp only [Option.some.injEq, Prod.mk.injEq] at ha
      rw [← ha.2]
      exact ⟨rfl, _, rfl, by simp [hanged_msg]⟩
    · exact quiet_dropbcast env st cmd buf_len r st1 ha
    · exact quiet_setband st cmd r st1 ha
  · simp only [unsupported, Option.some.injEq, Prod.mk.injEq] at hd
    rw [← hd.2]
    exact ⟨rfl, _, rfl, by simp [hanged_msg]⟩

/-- A call of the escalation changes the failure counter. -/
theorem send_hang_msg_changes_counter (st : State) :
    (wpa_driver_send_hang_msg st).g_drv_errors ≠ st.g_drv_errors := by
  unfold wpa_driver_send_hang_msg
  simp only [DRV_NUMBER_SEQUENTIAL_ERRORS]
  by_cases hg : wrap_int (st.g_drv_errors + 1) > 4
  · simp only [hg, if_true, State.emit]
    unfold wrap_int at hg
    omega
  · simp only [hg, if_false]
    unfold wrap_int
    omega

/-- C20: whatever the command and the results of the primitives, a call of the dispatcher that
returns leaves the failure counter `g_drv_errors` as it was, which a call of
`wpa_driver_send_hang_msg` never does; and the calls it adds to the trace contain the "HANGED"
notification exactly when the command is `RELOAD`. -/
theorem dispatcher_keeps_failure_counter (env : Env) (st : State) (cmd : List Nat)
    (buf_len : Nat) (r : Int) (st1 : State)
    (h : wpa_driver_nl80211_driver_cmd env st cmd buf_len = some (r, st1)) :
    st1.g_drv_errors = st.g_drv_errors ∧
      (wpa_driver_send_hang_msg st).g_drv_errors ≠ st1.g_drv_errors ∧
      ∃ evs, st1.trace = st.trace ++ evs ∧
        (Event.wpa_msg Level.MSG_INFO "CTRL-EVENT-DRIVER-STATE HANGED" ∈ evs ↔
          os_strcasecmp cmd (lit "RELOAD") = some 0) := by
  have key_fact : st1.g_drv_errors = st.g_drv_errors ∧
      ∃ evs, st1.trace = st.trace ++ evs ∧
        (hanged_msg ∈ evs ↔ os_strcasecmp cmd (lit "RELOAD") = some 0) := by
    by_cases hR : os_strcasecmp cmd (lit "RELOAD") = some 0
    · rw [driver_cmd_reload env st cmd buf_len hR, Option.some.injEq, Prod.mk.injEq] at h
      rw [← h.2]
      exact ⟨rfl, [hanged_msg], rfl, by simp [hR]⟩
    · obtain ⟨hg, evs, ht, hn⟩ := quiet_driver_cmd env st cmd buf_len r st1 h hR
      exact ⟨hg, evs, ht, by simp [hn, hR]⟩
  obtain ⟨hg, hev⟩ := key_fact
  refine ⟨hg, ?_, hev⟩
  rw [hg]
  exact send_hang_msg_changes_counter st

/-- The commands `RELOAD` and `STOP` from a counter of 3. -/
theorem dispatcher_keeps_failure_counter_witness :
    (3 : Int) = 3 ∧
      (∃ evs, [Event.wpa_msg Level.MSG_INFO "CTRL-EVENT-DRIVER-STATE HANGED"] = [] ++ evs ∧
        (Event.wpa_msg Level.MSG_INFO "CTRL-EVENT-DRIVER-STATE HANGED" ∈ evs ↔
          os_strcasecmp (lit "RELOAD") (lit "RELOAD") = some 0)) ∧
      (∃ evs, [Event.linux_set_iface_flags 0,
          Event.wpa_msg Level.MSG_INFO "CTRL-EVENT-DRIVER-STATE STOPPED"] = [] ++ evs ∧
        (Event.wpa_msg Level.MSG_INFO "CTRL-EVENT-DRIVER-STATE HANGED" ∈ evs ↔
          os_strcasecmp (lit "STOP") (lit "RELOAD") = some 0)) :=
  ⟨(dispatcher_keeps_failure_counter env_ok { g_drv_errors := 3, trace := [], buf := [] }
      (lit "RELOAD") 0 0
      { g_drv_errors := 3,
        trace := [Event.wpa_msg Level.MSG_INFO "CTRL-EVENT-DRIVER-STATE HANGED"], buf := [] }
      (by decide)).1,
   (dispatcher_keeps_failure_counter env_ok { g_drv_errors := 3, trace := [], buf := [] }
      (lit "RELOAD") 0 0
      { g_drv_errors := 3,
        trace := [Event.wpa_msg Level.MSG_INFO "CTRL-EVENT-DRIVER-STATE HANGED"], buf := [] }
      (by decide)).2.2,
   (dispatcher_keeps_failure_counter env_ok { g_drv_errors := 3, trace := [], buf := [] }
      (lit "STOP") 0 0
      { g_drv_errors := 3,
        trace := [Event.linux_set_iface_flags 0,
          Event.wpa_msg Level.MSG_INFO "CTRL-EVENT-DRIVER-STATE STOPPED"], buf := [] }
      (by decide)).2.2⟩

end TiWlan
